import Mathlib

/-!
Verification of the deployment-automation backend (FastAPI service).

This file shallowly embeds the decision logic of the repository:
* the metrics-driven scaling decision engine
  (`app/services/auto_scaling_service.py`),
* the heuristic project-type detector
  (`app/services/project_analyzer.py`),
* the Dockerfile generator dispatch
  (`app/services/containerization_service.py`),
* the deployment pipeline state machine and its in-memory store
  (`app/api/v1/endpoints/deployment.py`),
and proves the testable properties of the specification against the
embedding.

Modelling conventions: Python floats are embedded as exact rationals
(`ℚ`); Python dicts with known key sets become structures, with `Option`
fields for keys that may be absent; a `dict.get(k, d)` becomes
`Option.getD`; raising code is modelled with `Except`/oracle parameters;
uuid4 generation is modelled as a fresh-counter supply (identifiers are
opaque, never reused).
-/

namespace VibeDeploy

/-! ## Scaling decision engine (`auto_scaling_service.py`) -/

/-- The metrics dict built by `get_cloudwatch_metrics`.  Each key may be
absent (CloudWatch may return no datapoints), hence `Option` fields.
`metrics.get('cpu_utilization', 0)` etc. become `Option.getD`. -/
structure MetricsSnapshot where
  cpu_utilization : Option ℚ
  memory_utilization : Option ℚ
  request_count : Option ℚ
  current_capacity : Option ℚ
  deriving DecidableEq, Repr

/-- The empty dict `{}` returned by `get_cloudwatch_metrics` on any
retrieval exception (lines 291-293). -/
def MetricsSnapshot.empty : MetricsSnapshot := ⟨none, none, none, none⟩

/-- Models Python's `f"{x:.1f}"` rendering of a float, used only inside
human-readable `reason` strings.  No claim depends on the rendered
digits; theorems only use that equal inputs render equally. -/
def fmt1 (q : ℚ) : String :=
  let t : Int := ⌊q * 10⌋
  toString (t.fdiv 10) ++ "." ++ toString (t.fmod 10)

/-- Models Python's `f"{x:.2f}"` rendering of a float (used in the
pipeline's detection log line).  No claim depends on the digits. -/
def fmt2 (q : ℚ) : String :=
  let t : Int := ⌊q * 100⌋
  toString (t.fdiv 100) ++ "." ++ toString (t.fmod 100)

/-- The `ScalingDecision` dataclass. -/
structure ScalingDecision where
  direction : String
  target_capacity : ℚ
  reason : String
  confidence : ℚ
  metrics : MetricsSnapshot
  deriving DecidableEq, Repr

/-- Lines 156-194 of `analyze_scaling_metrics`: the pure decision rule
applied to an obtained metrics dict.  Python `//` is floor division,
embedded with `Int.floor`. -/
def scaling_rule (metrics : MetricsSnapshot) : ScalingDecision :=
  let cpu_utilization := metrics.cpu_utilization.getD 0
  let memory_utilization := metrics.memory_utilization.getD 0
  let request_count := metrics.request_count.getD 0
  if cpu_utilization > 80 ∨ memory_utilization > 85 then
    let current_capacity := metrics.current_capacity.getD 1
    let target_capacity := min (current_capacity * 2) 20
    { direction := "up"
      target_capacity := target_capacity
      reason := "High resource utilization: CPU " ++ fmt1 cpu_utilization ++
        "%, Memory " ++ fmt1 memory_utilization ++ "%"
      confidence := 0.9
      metrics := metrics }
  else if cpu_utilization < 20 ∧ memory_utilization < 30 ∧ request_count < 10 then
    let current_capacity := metrics.current_capacity.getD 1
    let target_capacity := max ((⌊current_capacity / 2⌋ : ℤ) : ℚ) 1
    { direction := "down"
      target_capacity := target_capacity
      reason := "Low resource utilization: CPU " ++ fmt1 cpu_utilization ++
        "%, Memory " ++ fmt1 memory_utilization ++ "%"
      confidence := 0.8
      metrics := metrics }
  else
    { direction := "none"
      target_capacity := metrics.current_capacity.getD 1
      reason := "Resource utilization within normal range"
      confidence := 0.7
      metrics := metrics }

/-- `get_cloudwatch_metrics`: the whole body is wrapped in
`try ... except: return {}`, so a retrieval failure is swallowed and an
empty dict is returned, never an exception.  The oracle argument is the
outcome of the CloudWatch/ECS calls. -/
def get_cloudwatch_metrics (fetch : Except String MetricsSnapshot) : MetricsSnapshot :=
  match fetch with
  | .ok m => m
  | .error _ => MetricsSnapshot.empty

/-- `analyze_scaling_metrics`: fetch the metrics (which cannot raise),
apply the decision rule; the outer `except` (lines 196-204) catches any
unexpected exception from the analysis body itself, modelled by the
`unexpected` oracle, and returns the degraded decision. -/
def analyze_scaling_metrics (fetch : Except String MetricsSnapshot)
    (unexpected : Option String) : ScalingDecision :=
  match unexpected with
  | some e =>
      { direction := "none"
        target_capacity := 1
        reason := "Metrics analysis failed: " ++ e
        confidence := 0.0
        metrics := MetricsSnapshot.empty }
  | none => scaling_rule (get_cloudwatch_metrics fetch)

/-- The observable core of a decision: everything except the echoed
`metrics` dict (which the code stores as the raw snapshot it was
given). -/
def ScalingDecision.core (d : ScalingDecision) : String × ℚ × String × ℚ :=
  (d.direction, d.target_capacity, d.reason, d.confidence)

/-! ## Project type detector (`project_analyzer.py`) -/

/-- Python's substring test `needle in hay` on character lists. -/
def isSubstrList (needle : List Char) : List Char → Bool
  | [] => needle.isEmpty
  | c :: t => needle.isPrefixOf (c :: t) || isSubstrList needle t

/-- `needle in hay` for strings. -/
def strContains (hay needle : String) : Bool := isSubstrList needle.toList hay.toList

/-- ASCII case folding of one character; models Python's `str.lower()`
(dependency names and keywords are ASCII). -/
def lowerChar (c : Char) : Char :=
  if 65 ≤ c.toNat ∧ c.toNat ≤ 90 then Char.ofNat (c.toNat + 32) else c

/-- `s.lower()` as a character list. -/
def lowerStr (s : String) : List Char := s.toList.map lowerChar

/-- One row of the `project_indicators` catalog. -/
structure Indicator where
  files : List String
  keywords : List String
  scripts : List String
  base_image : String
  port : Nat
  deriving DecidableEq, Repr

/-- The parsed manifest data used by detection: the key lists of
`dependencies`, `devDependencies` and `scripts` from `package.json`, in
insertion order (`_read_config_files`). -/
structure ConfigData where
  dependencies : List String
  devDependencies : List String
  scripts : List String
  deriving DecidableEq, Repr

/-- The `project_indicators` catalog of `ProjectAnalyzer.__init__`, in
source (= Python dict insertion) order. -/
def project_indicators : List (String × Indicator) :=
[  ("react", ⟨["package.json", "src/App.js", "src/App.jsx", "src/index.js"],
      ["react", "react-dom"], ["start", "build"], "node:18-alpine", 3000⟩),
  ("vue", ⟨["package.json", "src/App.vue", "src/main.js"],
      ["vue", "@vue/cli"], ["serve", "build"], "node:18-alpine", 8080⟩),
  ("angular", ⟨["package.json", "src/app/app.component.ts", "angular.json"],
      ["@angular/core", "@angular/cli"], ["start", "build"], "node:18-alpine", 4200⟩),
  ("nextjs", ⟨["package.json", "next.config.js", "pages/", "app/"],
      ["next", "react"], ["dev", "build", "start"], "node:18-alpine", 3000⟩),
  ("nuxt", ⟨["package.json", "nuxt.config.js", "pages/"],
      ["nuxt", "vue"], ["dev", "build", "start"], "node:18-alpine", 3000⟩),
  ("svelte", ⟨["package.json", "src/App.svelte", "svelte.config.js"],
      ["svelte", "sveltekit"], ["dev", "build"], "node:18-alpine", 5173⟩),
  ("python", ⟨["requirements.txt", "main.py", "app.py", "manage.py"],
      ["flask", "django", "fastapi", "streamlit"], [], "python:3.11-slim", 8000⟩),
  ("java", ⟨["pom.xml", "build.gradle", "src/main/java/"],
      ["spring", "maven", "gradle"], [], "openjdk:17-jre-slim", 8080⟩),
  ("go", ⟨["go.mod", "main.go", "go.sum"],
      ["gin", "echo", "fiber"], [], "golang:1.21-alpine", 8080⟩),
  ("rust", ⟨["Cargo.toml", "src/main.rs"],
      ["actix", "warp", "rocket"], [], "rust:1.75-slim", 8080⟩),
  ("php", ⟨["composer.json", "index.php", "public/"],
      ["laravel", "symfony", "wordpress"], [], "php:8.2-fpm-alpine", 80⟩),
  ("static", ⟨["index.html", "css/", "js/", "assets/"],
      [], [], "nginx:alpine", 80⟩)]

/-- `sum(1 for file in indicators[\"files\"] if any(file in f for f in files))`. -/
def file_matches (files : List String) (ind : Indicator) : Nat :=
  ind.files.countP (fun file => files.any (fun f => strContains f file))

/-- `sum(1 for keyword in indicators[\"keywords\"] if any(keyword in dep.lower() for dep in all_deps))`
where `all_deps` merges `dependencies` and `devDependencies`. -/
def keyword_matches (config : ConfigData) (ind : Indicator) : Nat :=
  ind.keywords.countP
    (fun kw => (config.dependencies ++ config.devDependencies).any
      (fun dep => isSubstrList kw.toList (lowerStr dep)))

/-- `sum(1 for script in indicators[\"scripts\"] if script in scripts)`. -/
def script_matches (config : ConfigData) (ind : Indicator) : Nat :=
  ind.scripts.countP (fun s => config.scripts.contains s)

/-- The weighted score of one catalog row (`_detect_project_type`, lines
251-275).  The float weights 0.4, 0.4, 0.2 are the exact rationals 2/5,
2/5, 1/5.  Each term is guarded by `matches > 0`, as in the source. -/
def indicator_score (files : List String) (config : ConfigData) (ind : Indicator) : ℚ :=
  (if 0 < file_matches files ind then
    ((file_matches files ind : ℚ) / (ind.files.length : ℚ)) * (2/5) else 0) +
  (if 0 < keyword_matches config ind then
    ((keyword_matches config ind : ℚ) / (ind.keywords.length : ℚ)) * (2/5) else 0) +
  (if 0 < script_matches config ind then
    ((script_matches config ind : ℚ) / (ind.scripts.length : ℚ)) * (1/5) else 0)

/-- The `scores` dict, in catalog order. -/
def detect_scores (files : List String) (config : ConfigData) : List (String × ℚ) :=
  project_indicators.map (fun p => (p.1, indicator_score files config p.2))

/-- `max(scores, key=scores.get)` with its value: the first maximum in
iteration order (later entries replace only on strictly greater score). -/
def best_score : List (String × ℚ) → String × ℚ
  | [] => ("", 0)
  | x :: xs => xs.foldl (fun b y => if y.2 > b.2 then y else b) x

/-- `_detect_project_type`: best catalog match, overridden to
(static, 0.3) when the best score is below the 0.3 (= 3/10) floor. -/
def detect_project_type (files : List String) (config : ConfigData) : String × ℚ :=
  let best := best_score (detect_scores files config)
  if best.2 < 3/10 then ("static", 3/10) else best

/-- The spec's react example: the uploaded file listing. -/
def react_example_files : List String := ["package.json", "src/App.js", "src/index.js"]

/-- The spec's react example: manifest dependencies and scripts. -/
def react_example_config : ConfigData := ⟨["react", "react-dom"], [], ["start", "build"]⟩

/-! ## Containerization service (`containerization_service.py`) -/

/-- The `ProjectAnalysis` dataclass of `project_analyzer.py`:
`project_type` holds the enum's `.value` string; `health_check` is the
optional health-check dict. -/
structure ProjectAnalysisRec where
  project_type : String
  framework_version : Option String
  package_manager : String
  build_command : Option String
  output_dir : Option String
  dependencies : List String
  environment_vars : List (String × String)
  port : Nat
  health_check : Option (List (String × String))
  dockerfile_strategy : String
  base_image : String
  confidence_score : ℚ
  deriving DecidableEq, Repr

/-- `_generate_react_dockerfile`. -/
def generate_react_dockerfile (analysis : ProjectAnalysisRec) : String :=
  "# Multi-stage build for React app\n" ++
  "FROM node:18-alpine AS builder\n" ++
  "\n" ++
  "# Set working directory\n" ++
  "WORKDIR /app\n" ++
  "\n" ++
  "# Copy package files\n" ++
  "COPY package*.json ./\n" ++
  "\n" ++
  "# Install dependencies\n" ++
  "RUN npm ci --only=production\n" ++
  "\n" ++
  "# Copy source code\n" ++
  "COPY . .\n" ++
  "\n" ++
  "# Build the app\n" ++
  "RUN npm run build\n" ++
  "\n" ++
  "# Production stage\n" ++
  "FROM nginx:alpine\n" ++
  "\n" ++
  "# Copy built app to nginx\n" ++
  "COPY --from=builder /app/dist /usr/share/nginx/html\n" ++
  "\n" ++
  "# Copy nginx configuration\n" ++
  "COPY nginx.conf /etc/nginx/nginx.conf\n" ++
  "\n" ++
  "# Expose port\n" ++
  "EXPOSE " ++
  toString analysis.port ++
  "\n" ++
  "\n" ++
  "# Health check\n" ++
  "HEALTHCHECK --interval=30s --timeout=3s --start-period=5s --retries=3 \\\n" ++
  "    CMD curl -f http://localhost:" ++
  toString analysis.port ++
  "/ || exit 1\n" ++
  "\n" ++
  "# Start nginx\n" ++
  "CMD [\"nginx\", \"-g\", \"daemon off;\"]\n"

/-- `_generate_vue_dockerfile`. -/
def generate_vue_dockerfile (analysis : ProjectAnalysisRec) : String :=
  "# Multi-stage build for Vue.js app\n" ++
  "FROM node:18-alpine AS builder\n" ++
  "\n" ++
  "WORKDIR /app\n" ++
  "\n" ++
  "# Copy package files\n" ++
  "COPY package*.json ./\n" ++
  "\n" ++
  "# Install dependencies\n" ++
  "RUN npm ci --only=production\n" ++
  "\n" ++
  "# Copy source code\n" ++
  "COPY . .\n" ++
  "\n" ++
  "# Build the app\n" ++
  "RUN npm run build\n" ++
  "\n" ++
  "# Production stage\n" ++
  "FROM nginx:alpine\n" ++
  "\n" ++
  "# Copy built app to nginx\n" ++
  "COPY --from=builder /app/dist /usr/share/nginx/html\n" ++
  "\n" ++
  "# Copy nginx configuration\n" ++
  "COPY nginx.conf /etc/nginx/nginx.conf\n" ++
  "\n" ++
  "# Expose port\n" ++
  "EXPOSE " ++
  toString analysis.port ++
  "\n" ++
  "\n" ++
  "# Health check\n" ++
  "HEALTHCHECK --interval=30s --timeout=3s --start-period=5s --retries=3 \\\n" ++
  "    CMD curl -f http://localhost:" ++
  toString analysis.port ++
  "/ || exit 1\n" ++
  "\n" ++
  "# Start nginx\n" ++
  "CMD [\"nginx\", \"-g\", \"daemon off;\"]\n"

/-- `_generate_angular_dockerfile`. -/
def generate_angular_dockerfile (analysis : ProjectAnalysisRec) : String :=
  "# Multi-stage build for Angular app\n" ++
  "FROM node:18-alpine AS builder\n" ++
  "\n" ++
  "WORKDIR /app\n" ++
  "\n" ++
  "# Copy package files\n" ++
  "COPY package*.json ./\n" ++
  "\n" ++
  "# Install dependencies\n" ++
  "RUN npm ci --only=production\n" ++
  "\n" ++
  "# Copy source code\n" ++
  "COPY . .\n" ++
  "\n" ++
  "# Build the app\n" ++
  "RUN npm run build --prod\n" ++
  "\n" ++
  "# Production stage\n" ++
  "FROM nginx:alpine\n" ++
  "\n" ++
  "# Copy built app to nginx\n" ++
  "COPY --from=builder /app/dist /usr/share/nginx/html\n" ++
  "\n" ++
  "# Copy nginx configuration\n" ++
  "COPY nginx.conf /etc/nginx/nginx.conf\n" ++
  "\n" ++
  "# Expose port\n" ++
  "EXPOSE " ++
  toString analysis.port ++
  "\n" ++
  "\n" ++
  "# Health check\n" ++
  "HEALTHCHECK --interval=30s --timeout=3s --start-period=5s --retries=3 \\\n" ++
  "    CMD curl -f http://localhost:" ++
  toString analysis.port ++
  "/ || exit 1\n" ++
  "\n" ++
  "# Start nginx\n" ++
  "CMD [\"nginx\", \"-g\", \"daemon off;\"]\n"

/-- `_generate_nextjs_dockerfile`. -/
def generate_nextjs_dockerfile (analysis : ProjectAnalysisRec) : String :=
  "# Multi-stage build for Next.js app\n" ++
  "FROM node:18-alpine AS base\n" ++
  "\n" ++
  "# Install dependencies only when needed\n" ++
  "FROM base AS deps\n" ++
  "RUN apk add --no-cache libc6-compat\n" ++
  "WORKDIR /app\n" ++
  "\n" ++
  "# Copy package files\n" ++
  "COPY package*.json ./\n" ++
  "RUN npm ci --only=production\n" ++
  "\n" ++
  "# Rebuild the source code only when needed\n" ++
  "FROM base AS builder\n" ++
  "WORKDIR /app\n" ++
  "COPY --from=deps /app/node_modules ./node_modules\n" ++
  "COPY . .\n" ++
  "\n" ++
  "# Build the app\n" ++
  "RUN npm run build\n" ++
  "\n" ++
  "# Production image, copy all the files and run next\n" ++
  "FROM base AS runner\n" ++
  "WORKDIR /app\n" ++
  "\n" ++
  "ENV NODE_ENV production\n" ++
  "\n" ++
  "RUN addgroup --system --gid 1001 nodejs\n" ++
  "RUN adduser --system --uid 1001 nextjs\n" ++
  "\n" ++
  "COPY --from=builder /app/public ./public\n" ++
  "\n" ++
  "# Set the correct permission for prerender cache\n" ++
  "RUN mkdir .next\n" ++
  "RUN chown nextjs:nodejs .next\n" ++
  "\n" ++
  "# Automatically leverage output traces to reduce image size\n" ++
  "COPY --from=builder --chown=nextjs:nodejs /app/.next/standalone ./\n" ++
  "COPY --from=builder --chown=nextjs:nodejs /app/.next/static ./.next/static\n" ++
  "\n" ++
  "USER nextjs\n" ++
  "\n" ++
  "EXPOSE " ++
  toString analysis.port ++
  "\n" ++
  "\n" ++
  "ENV PORT " ++
  toString analysis.port ++
  "\n" ++
  "ENV HOSTNAME \"0.0.0.0\"\n" ++
  "\n" ++
  "# Health check\n" ++
  "HEALTHCHECK --interval=30s --timeout=3s --start-period=5s --retries=3 \\\n" ++
  "    CMD curl -f http://localhost:" ++
  toString analysis.port ++
  "/api/health || exit 1\n" ++
  "\n" ++
  "CMD [\"node\", \"server.js\"]\n"

/-- `_generate_nuxt_dockerfile`. -/
def generate_nuxt_dockerfile (analysis : ProjectAnalysisRec) : String :=
  "# Multi-stage build for Nuxt.js app\n" ++
  "FROM node:18-alpine AS base\n" ++
  "\n" ++
  "# Install dependencies only when needed\n" ++
  "FROM base AS deps\n" ++
  "RUN apk add --no-cache libc6-compat\n" ++
  "WORKDIR /app\n" ++
  "\n" ++
  "# Copy package files\n" ++
  "COPY package*.json ./\n" ++
  "RUN npm ci --only=production\n" ++
  "\n" ++
  "# Rebuild the source code only when needed\n" ++
  "FROM base AS builder\n" ++
  "WORKDIR /app\n" ++
  "COPY --from=deps /app/node_modules ./node_modules\n" ++
  "COPY . .\n" ++
  "\n" ++
  "# Build the app\n" ++
  "RUN npm run build\n" ++
  "\n" ++
  "# Production image, copy all the files and run nuxt\n" ++
  "FROM base AS runner\n" ++
  "WORKDIR /app\n" ++
  "\n" ++
  "ENV NODE_ENV production\n" ++
  "\n" ++
  "RUN addgroup --system --gid 1001 nodejs\n" ++
  "RUN adduser --system --uid 1001 nuxtjs\n" ++
  "\n" ++
  "COPY --from=builder --chown=nuxtjs:nodejs /app/.output ./.output\n" ++
  "\n" ++
  "USER nuxtjs\n" ++
  "\n" ++
  "EXPOSE " ++
  toString analysis.port ++
  "\n" ++
  "\n" ++
  "ENV PORT " ++
  toString analysis.port ++
  "\n" ++
  "ENV HOSTNAME \"0.0.0.0\"\n" ++
  "\n" ++
  "# Health check\n" ++
  "HEALTHCHECK --interval=30s --timeout=3s --start-period=5s --retries=3 \\\n" ++
  "    CMD curl -f http://localhost:" ++
  toString analysis.port ++
  "/ || exit 1\n" ++
  "\n" ++
  "CMD [\"node\", \".output/server/index.mjs\"]\n"

/-- `_generate_svelte_dockerfile`. -/
def generate_svelte_dockerfile (analysis : ProjectAnalysisRec) : String :=
  "# Multi-stage build for Svelte app\n" ++
  "FROM node:18-alpine AS builder\n" ++
  "\n" ++
  "WORKDIR /app\n" ++
  "\n" ++
  "# Copy package files\n" ++
  "COPY package*.json ./\n" ++
  "\n" ++
  "# Install dependencies\n" ++
  "RUN npm ci --only=production\n" ++
  "\n" ++
  "# Copy source code\n" ++
  "COPY . .\n" ++
  "\n" ++
  "# Build the app\n" ++
  "RUN npm run build\n" ++
  "\n" ++
  "# Production stage\n" ++
  "FROM nginx:alpine\n" ++
  "\n" ++
  "# Copy built app to nginx\n" ++
  "COPY --from=builder /app/build /usr/share/nginx/html\n" ++
  "\n" ++
  "# Copy nginx configuration\n" ++
  "COPY nginx.conf /etc/nginx/nginx.conf\n" ++
  "\n" ++
  "# Expose port\n" ++
  "EXPOSE " ++
  toString analysis.port ++
  "\n" ++
  "\n" ++
  "# Health check\n" ++
  "HEALTHCHECK --interval=30s --timeout=3s --start-period=5s --retries=3 \\\n" ++
  "    CMD curl -f http://localhost:" ++
  toString analysis.port ++
  "/ || exit 1\n" ++
  "\n" ++
  "# Start nginx\n" ++
  "CMD [\"nginx\", \"-g\", \"daemon off;\"]\n"

/-- `_generate_python_dockerfile`. -/
def generate_python_dockerfile (analysis : ProjectAnalysisRec) : String :=
  "# Multi-stage build for Python app\n" ++
  "FROM python:3.11-slim AS builder\n" ++
  "\n" ++
  "# Set working directory\n" ++
  "WORKDIR /app\n" ++
  "\n" ++
  "# Install system dependencies\n" ++
  "RUN apt-get update && apt-get install -y \\\n" ++
  "    gcc \\\n" ++
  "    && rm -rf /var/lib/apt/lists/*\n" ++
  "\n" ++
  "# Copy requirements and install Python dependencies\n" ++
  "COPY requirements.txt .\n" ++
  "RUN pip install --no-cache-dir --user -r requirements.txt\n" ++
  "\n" ++
  "# Production stage\n" ++
  "FROM python:3.11-slim\n" ++
  "\n" ++
  "# Set working directory\n" ++
  "WORKDIR /app\n" ++
  "\n" ++
  "# Copy Python dependencies from builder\n" ++
  "COPY --from=builder /root/.local /root/.local\n" ++
  "\n" ++
  "# Copy application code\n" ++
  "COPY . .\n" ++
  "\n" ++
  "# Set environment variables\n" ++
  "ENV PATH=/root/.local/bin:$PATH\n" ++
  "ENV PYTHONPATH=/app\n" ++
  "\n" ++
  "# Expose port\n" ++
  "EXPOSE " ++
  toString analysis.port ++
  "\n" ++
  "\n" ++
  "# Health check\n" ++
  "HEALTHCHECK --interval=30s --timeout=3s --start-period=5s --retries=3 \\\n" ++
  "    CMD curl -f http://localhost:" ++
  toString analysis.port ++
  "/health || exit 1\n" ++
  "\n" ++
  "# Run the application\n" ++
  "CMD [\"python\", \"main.py\"]\n"

/-- `_generate_java_dockerfile`. -/
def generate_java_dockerfile (analysis : ProjectAnalysisRec) : String :=
  "# Multi-stage build for Java app\n" ++
  "FROM openjdk:17-jdk-slim AS builder\n" ++
  "\n" ++
  "WORKDIR /app\n" ++
  "\n" ++
  "# Copy build files\n" ++
  "COPY pom.xml .\n" ++
  "COPY src ./src\n" ++
  "\n" ++
  "# Build the application\n" ++
  "RUN mvn clean package -DskipTests\n" ++
  "\n" ++
  "# Production stage\n" ++
  "FROM openjdk:17-jre-slim\n" ++
  "\n" ++
  "WORKDIR /app\n" ++
  "\n" ++
  "# Copy the built jar\n" ++
  "COPY --from=builder /app/target/*.jar app.jar\n" ++
  "\n" ++
  "# Expose port\n" ++
  "EXPOSE " ++
  toString analysis.port ++
  "\n" ++
  "\n" ++
  "# Health check\n" ++
  "HEALTHCHECK --interval=30s --timeout=3s --start-period=5s --retries=3 \\\n" ++
  "    CMD curl -f http://localhost:" ++
  toString analysis.port ++
  "/actuator/health || exit 1\n" ++
  "\n" ++
  "# Run the application\n" ++
  "CMD [\"java\", \"-jar\", \"app.jar\"]\n"

/-- `_generate_go_dockerfile`. -/
def generate_go_dockerfile (analysis : ProjectAnalysisRec) : String :=
  "# Multi-stage build for Go app\n" ++
  "FROM golang:1.21-alpine AS builder\n" ++
  "\n" ++
  "WORKDIR /app\n" ++
  "\n" ++
  "# Copy go mod files\n" ++
  "COPY go.mod go.sum ./\n" ++
  "\n" ++
  "# Download dependencies\n" ++
  "RUN go mod download\n" ++
  "\n" ++
  "# Copy source code\n" ++
  "COPY . .\n" ++
  "\n" ++
  "# Build the application\n" ++
  "RUN CGO_ENABLED=0 GOOS=linux go build -a -installsuffix cgo -o main .\n" ++
  "\n" ++
  "# Production stage\n" ++
  "FROM alpine:latest\n" ++
  "\n" ++
  "RUN apk --no-cache add ca-certificates\n" ++
  "WORKDIR /root/\n" ++
  "\n" ++
  "# Copy the binary\n" ++
  "COPY --from=builder /app/main .\n" ++
  "\n" ++
  "# Expose port\n" ++
  "EXPOSE " ++
  toString analysis.port ++
  "\n" ++
  "\n" ++
  "# Health check\n" ++
  "HEALTHCHECK --interval=30s --timeout=3s --start-period=5s --retries=3 \\\n" ++
  "    CMD curl -f http://localhost:" ++
  toString analysis.port ++
  "/health || exit 1\n" ++
  "\n" ++
  "# Run the application\n" ++
  "CMD [\"./main\"]\n"

/-- `_generate_rust_dockerfile`. -/
def generate_rust_dockerfile (analysis : ProjectAnalysisRec) : String :=
  "# Multi-stage build for Rust app\n" ++
  "FROM rust:1.75-slim AS builder\n" ++
  "\n" ++
  "WORKDIR /app\n" ++
  "\n" ++
  "# Copy Cargo files\n" ++
  "COPY Cargo.toml Cargo.lock ./\n" ++
  "\n" ++
  "# Build dependencies\n" ++
  "RUN cargo build --release\n" ++
  "\n" ++
  "# Copy source code\n" ++
  "COPY src ./src\n" ++
  "\n" ++
  "# Build the application\n" ++
  "RUN cargo build --release\n" ++
  "\n" ++
  "# Production stage\n" ++
  "FROM debian:bookworm-slim\n" ++
  "\n" ++
  "WORKDIR /app\n" ++
  "\n" ++
  "# Install runtime dependencies\n" ++
  "RUN apt-get update && apt-get install -y \\\n" ++
  "    ca-certificates \\\n" ++
  "    && rm -rf /var/lib/apt/lists/*\n" ++
  "\n" ++
  "# Copy the binary\n" ++
  "COPY --from=builder /app/target/release/app .\n" ++
  "\n" ++
  "# Expose port\n" ++
  "EXPOSE " ++
  toString analysis.port ++
  "\n" ++
  "\n" ++
  "# Health check\n" ++
  "HEALTHCHECK --interval=30s --timeout=3s --start-period=5s --retries=3 \\\n" ++
  "    CMD curl -f http://localhost:" ++
  toString analysis.port ++
  "/health || exit 1\n" ++
  "\n" ++
  "# Run the application\n" ++
  "CMD [\"./app\"]\n"

/-- `_generate_php_dockerfile`. -/
def generate_php_dockerfile (analysis : ProjectAnalysisRec) : String :=
  "# Multi-stage build for PHP app\n" ++
  "FROM php:8.2-fpm-alpine AS builder\n" ++
  "\n" ++
  "WORKDIR /app\n" ++
  "\n" ++
  "# Install system dependencies\n" ++
  "RUN apk add --no-cache \\\n" ++
  "    nginx \\\n" ++
  "    supervisor\n" ++
  "\n" ++
  "# Install PHP extensions\n" ++
  "RUN docker-php-ext-install pdo pdo_mysql\n" ++
  "\n" ++
  "# Copy application code\n" ++
  "COPY . .\n" ++
  "\n" ++
  "# Install Composer dependencies\n" ++
  "COPY composer.json composer.lock ./\n" ++
  "RUN curl -sS https://getcomposer.org/installer | php -- --install-dir=/usr/local/bin --filename=composer\n" ++
  "RUN composer install --no-dev --optimize-autoloader\n" ++
  "\n" ++
  "# Production stage\n" ++
  "FROM php:8.2-fpm-alpine\n" ++
  "\n" ++
  "WORKDIR /app\n" ++
  "\n" ++
  "# Install nginx and supervisor\n" ++
  "RUN apk add --no-cache nginx supervisor\n" ++
  "\n" ++
  "# Copy application code\n" ++
  "COPY --from=builder /app .\n" ++
  "\n" ++
  "# Copy nginx configuration\n" ++
  "COPY nginx.conf /etc/nginx/nginx.conf\n" ++
  "\n" ++
  "# Copy supervisor configuration\n" ++
  "COPY supervisord.conf /etc/supervisor/conf.d/supervisord.conf\n" ++
  "\n" ++
  "# Expose port\n" ++
  "EXPOSE " ++
  toString analysis.port ++
  "\n" ++
  "\n" ++
  "# Health check\n" ++
  "HEALTHCHECK --interval=30s --timeout=3s --start-period=5s --retries=3 \\\n" ++
  "    CMD curl -f http://localhost:" ++
  toString analysis.port ++
  "/ || exit 1\n" ++
  "\n" ++
  "# Start services\n" ++
  "CMD [\"/usr/bin/supervisord\", \"-c\", \"/etc/supervisor/conf.d/supervisord.conf\"]\n"

/-- `_generate_static_dockerfile`. -/
def generate_static_dockerfile (analysis : ProjectAnalysisRec) : String :=
  "# Static site Dockerfile\n" ++
  "FROM nginx:alpine\n" ++
  "\n" ++
  "# Copy static files\n" ++
  "COPY . /usr/share/nginx/html\n" ++
  "\n" ++
  "# Copy nginx configuration\n" ++
  "COPY nginx.conf /etc/nginx/nginx.conf\n" ++
  "\n" ++
  "# Expose port\n" ++
  "EXPOSE " ++
  toString analysis.port ++
  "\n" ++
  "\n" ++
  "# Health check\n" ++
  "HEALTHCHECK --interval=30s --timeout=3s --start-period=5s --retries=3 \\\n" ++
  "    CMD curl -f http://localhost:" ++
  toString analysis.port ++
  "/ || exit 1\n" ++
  "\n" ++
  "# Start nginx\n" ++
  "CMD [\"nginx\", \"-g\", \"daemon off;\"]\n"

/-- `_generate_generic_dockerfile`: the fallback for project types
with no template; parameterized only by `base_image` and `port`. -/
def generate_generic_dockerfile (analysis : ProjectAnalysisRec) : String :=
  "# Generic Dockerfile\n" ++
  "FROM " ++
  analysis.base_image ++
  "\n" ++
  "\n" ++
  "WORKDIR /app\n" ++
  "\n" ++
  "# Copy application code\n" ++
  "COPY . .\n" ++
  "\n" ++
  "# Expose port\n" ++
  "EXPOSE " ++
  toString analysis.port ++
  "\n" ++
  "\n" ++
  "# Health check\n" ++
  "HEALTHCHECK --interval=30s --timeout=3s --start-period=5s --retries=3 \\\n" ++
  "    CMD curl -f http://localhost:" ++
  toString analysis.port ++
  "/ || exit 1\n" ++
  "\n" ++
  "# Run the application\n" ++
  "CMD [\"echo\", \"Please configure your application startup command\"]\n"

/-- The `dockerfile_templates` dict of `ContainerizationService.__init__`:
generator functions keyed by PROJECT TYPE value (not by dockerfile
strategy). -/
def dockerfile_templates : List (String × (ProjectAnalysisRec → String)) :=
  [("react", generate_react_dockerfile),
   ("vue", generate_vue_dockerfile),
   ("angular", generate_angular_dockerfile),
   ("nextjs", generate_nextjs_dockerfile),
   ("nuxt", generate_nuxt_dockerfile),
   ("svelte", generate_svelte_dockerfile),
   ("python", generate_python_dockerfile),
   ("java", generate_java_dockerfile),
   ("go", generate_go_dockerfile),
   ("rust", generate_rust_dockerfile),
   ("php", generate_php_dockerfile),
   ("static", generate_static_dockerfile)]

/-- `_generate_dockerfile`: dispatch on `analysis.project_type.value`,
falling back to the generic template when the type has no entry. -/
def generate_dockerfile (analysis : ProjectAnalysisRec) : String :=
  match dockerfile_templates.lookup analysis.project_type with
  | some g => g analysis
  | none => generate_generic_dockerfile analysis

/-- A Next.js profile as `analyze_project` would build it (strategy
"nextjs-optimized" per `_determine_dockerfile_strategy`, port 3000 and
base image node:18-alpine from the catalog). -/
def nextjs_profile : ProjectAnalysisRec :=
  { project_type := "nextjs", framework_version := none, package_manager := "npm",
    build_command := some "npm run build", output_dir := some ".next", dependencies := [],
    environment_vars := [("NODE_ENV", "production"), ("PORT", "3000")], port := 3000,
    health_check := none, dockerfile_strategy := "nextjs-optimized",
    base_image := "node:18-alpine", confidence_score := 1 }

/-- A Nuxt profile identical to `nextjs_profile` in every field except
the project type — in particular the same `dockerfile_strategy`
("nextjs-optimized", which `_determine_dockerfile_strategy` assigns to
both types), the same `base_image` and the same `port`. -/
def nuxt_profile : ProjectAnalysisRec :=
  { nextjs_profile with project_type := "nuxt" }

/-- A profile whose project type has no entry in
`dockerfile_templates`. -/
def unknown_profile : ProjectAnalysisRec :=
  { nextjs_profile with
    project_type := "unknown"
    dockerfile_strategy := "simple"
    base_image := "nginx:alpine"
    port := 80 }


/-! ## Deployment pipeline (`endpoints/deployment.py`) -/

/-- The summary dict stored under `deployment["project_analysis"]` when
a run succeeds. -/
structure AnalysisSummary where
  type : String
  framework_version : Option String
  package_manager : String
  port : Nat
  base_image : String
  confidence_score : ℚ
  deriving DecidableEq, Repr

/-- One record of the in-memory `deployments` dict (lines 52-69).
Timestamps (`datetime.utcnow().isoformat()`) are abstract clock values,
embedded as naturals. -/
structure DeploymentData where
  project_name : String
  project_type : String
  environment : String
  status : String
  created_at : Nat
  updated_at : Nat
  options : List (String × String)
  logs : List String
  errors : List String
  resources_created : List String
  resources_failed : List String
  monitoring_enabled : Bool
  url : Option String
  metrics_url : Option String
  logs_url : Option String
  project_analysis : Option AnalysisSummary
  deriving DecidableEq, Repr

/-- The in-memory `deployments` store, keyed by deployment id.  uuid4
identifiers are opaque and never reused; they are modelled as naturals
drawn from the fresh counter of `ServerState`. -/
abbrev Store := List (Nat × DeploymentData)

/-- The `EnhancedDeploymentRequest` schema fields the pipeline reads. -/
structure EnhancedDeploymentRequest where
  project_name : String
  project_type : String
  environment : String
  options : List (String × String)
  enable_containerization : Bool
  enable_kubernetes : Bool
  enable_prefect : Bool
  enable_monitoring : Bool
  enable_auto_scaling : Bool
  deriving DecidableEq, Repr

/-- The `f"[{timestamp}] {message}"` log entry. -/
def log_line (now : Nat) (message : String) : String :=
  "[" ++ toString now ++ "] " ++ message

/-- A mutation of the record object under a present key (Python mutates
the dict object in place; a record deleted from the store is no longer
reachable through it, so the mutation is invisible). -/
def modify_record (ds : Store) (id : Nat) (f : DeploymentData → DeploymentData) : Store :=
  ds.map (fun e => if e.1 = id then (e.1, f e.2) else e)

/-- `update_deployment_status` (lines 349-354): when the id is present,
set `status`, refresh `updated_at` and append a timestamped log line;
when it is absent, do nothing and raise nothing.  The `progress`
argument is accepted but stored nowhere, exactly as in the source. -/
def update_deployment_status (ds : Store) (id : Nat) (status : String)
    (progress : Nat) (message : String) (now : Nat) : Store :=
  if (ds.lookup id).isSome then
    modify_record ds id (fun d =>
      { d with
        status := status
        updated_at := now
        logs := d.logs ++ [log_line now message] })
  else ds

/-- One observable action of the background task. -/
inductive PipelineOp where
  | updateStatus (status : String) (progress : Nat) (message : String)
  | addResources (resources : List String)
  deriving DecidableEq, Repr

def apply_op (ds : Store) (id : Nat) (now : Nat) : PipelineOp → Store
  | .updateStatus st p msg => update_deployment_status ds id st p msg now
  | .addResources rs => modify_record ds id (fun d =>
      { d with resources_created := d.resources_created ++ rs })

def apply_ops (ds : Store) (id : Nat) (now : Nat) : List PipelineOp → Store
  | [] => ds
  | op :: rest => apply_ops (apply_op ds id now op) id (now + 1) rest

/-- The actions of `process_enhanced_deployment` (lines 249-316) from
the first status update up to, but not including, the final success
update, for a given request and analysis result.  Every `await` that can
raise lies in this region, so an unhandled exception cuts this list at
an arbitrary boundary. -/
def body_ops (req : EnhancedDeploymentRequest) (a : ProjectAnalysisRec) : List PipelineOp :=
  [.updateStatus "detecting" 10 "Analyzing project structure..."] ++
  [.updateStatus "detecting" 15 ("Detected " ++ a.project_type ++
    " project (confidence: " ++ fmt2 a.confidence_score ++ ")")] ++
  (if req.enable_containerization then
    [.updateStatus "containerizing" 25 "Generating Docker configuration...",
     .updateStatus "containerizing" 30 "Dockerfile and Docker Compose generated",
     .addResources ["Dockerfile", "docker-compose.yml", "docker-compose.prod.yml",
       ".dockerignore"]]
   else []) ++
  [.updateStatus "building" 40 ("Building " ++ a.project_type ++ " project...")] ++
  (match a.build_command with
   | some cmd => [.updateStatus "building" 45 ("Running: " ++ cmd)]
   | none => []) ++
  [.addResources ["Build artifacts"]] ++
  (if req.enable_kubernetes then
    [.updateStatus "deploying" 60 "Deploying to Kubernetes...",
     .addResources ["Kubernetes deployment", "Kubernetes service", "Kubernetes ingress"]]
   else []) ++
  [.updateStatus "deploying" 70 "Deploying to cloud infrastructure...",
   .addResources ["S3 bucket", "CloudFront distribution",
     if a.project_type = "static" then "Lambda function" else "ECS service"]] ++
  (if req.enable_monitoring then
    [.updateStatus "configuring" 80 "Setting up monitoring and observability...",
     .addResources ["CloudWatch logs", "CloudWatch metrics", "CloudWatch alarms"]]
   else [])

/-- Step 7 (lines 317-331): the success update and the result-field
assignments; no awaited operation can raise here. -/
def finish_success (ds : Store) (id : Nat) (req : EnhancedDeploymentRequest)
    (a : ProjectAnalysisRec) (now : Nat) : Store :=
  modify_record
    (update_deployment_status ds id "success" 100 "Deployment completed successfully" now)
    id (fun d =>
      { d with
        url := some ("https://" ++ req.project_name ++ ".deployhub.com")
        metrics_url := some ("https://metrics.deployhub.com/" ++ toString id)
        logs_url := some ("https://logs.deployhub.com/" ++ toString id)
        project_analysis := some ⟨a.project_type, a.framework_version, a.package_manager,
          a.port, a.base_image, a.confidence_score⟩ })

/-- The `except` handler (lines 335-338): status to "failed" with
progress argument 0, a "Deployment failed: e" log line, and the
exception message appended to `errors`. -/
def fail_handler (ds : Store) (id : Nat) (e : String) (now : Nat) : Store :=
  modify_record
    (update_deployment_status ds id "failed" 0 ("Deployment failed: " ++ e) now)
    id (fun d => { d with errors := d.errors ++ [e] })

/-- `process_enhanced_deployment`: with no exception (`fail = none`) run
the whole body and the success tail; with an unhandled exception of
message `e` at the k-th action boundary (`fail = some (k, e)`) run the
k-action prefix of the body and then the handler.  The handler is
terminal: execution never resumes from the failed stage. -/
def process_enhanced_deployment (ds : Store) (id : Nat)
    (req : EnhancedDeploymentRequest) (a : ProjectAnalysisRec)
    (fail : Option (Nat × String)) (now : Nat) : Store :=
  match fail with
  | none =>
      finish_success (apply_ops ds id now (body_ops req a)) id req a
        (now + (body_ops req a).length)
  | some (k, e) =>
      fail_handler (apply_ops ds id now ((body_ops req a).take k)) id e (now + k)

/-- The status carried by an action, when it is a status update. -/
def op_status? : PipelineOp → Option String
  | .updateStatus st _ _ => some st
  | .addResources _ => none

/-- The sequence of `status` values one run writes to its record,
starting from the "pending" the record is created with. -/
def status_trace (req : EnhancedDeploymentRequest) (a : ProjectAnalysisRec)
    (fail : Option (Nat × String)) : List String :=
  "pending" ::
    (match fail with
     | none => (body_ops req a).filterMap op_status? ++ ["success"]
     | some (k, _) => ((body_ops req a).take k).filterMap op_status? ++ ["failed"])

/-- The stage sequence in forward order. -/
def stage_order : List String :=
  ["pending", "detecting", "containerizing", "building", "deploying", "configuring",
   "success"]

def stage_index (s : String) : Nat := stage_order.indexOf s

/-- One legal step of the status machine: forward through the stage
order or a jump to "failed", and never out of a terminal state. -/
def forward_step (x y : String) : Prop :=
  (stage_index x ≤ stage_index y ∨ y = "failed") ∧ x ≠ "success" ∧ x ≠ "failed"

/-- The `progress_map` of `get_deployment_status` (lines 172-181) with
its dict-get default 0. -/
def progress_map_get (status : String) : Nat :=
  if status = "pending" then 0
  else if status = "detecting" then 10
  else if status = "containerizing" then 25
  else if status = "building" then 40
  else if status = "deploying" then 60
  else if status = "configuring" then 80
  else if status = "success" then 100
  else if status = "failed" then 0
  else 0

/-- `get_status_message` (lines 361-373). -/
def get_status_message (status : String) : String :=
  if status = "pending" then "Deployment is pending"
  else if status = "detecting" then "Detecting project type and configuration"
  else if status = "containerizing" then "Creating Docker container"
  else if status = "building" then "Building project artifacts"
  else if status = "deploying" then "Deploying to cloud infrastructure"
  else if status = "configuring" then "Configuring services and monitoring"
  else if status = "success" then "Deployment completed successfully"
  else if status = "failed" then "Deployment failed"
  else "Unknown status"

/-- The `DeploymentStatus` response of `get_deployment_status`. -/
structure DeploymentStatusView where
  deployment_id : Nat
  status : String
  progress : Nat
  message : String
  logs_count : Nat
  errors_count : Nat
  resources_created_count : Nat
  resources_failed_count : Nat
  last_updated : Nat
  deriving DecidableEq, Repr

/-- The `get_deployment_status` endpoint (lines 158-195): 404 (`none`)
on an unknown id, otherwise the status view with `progress` taken from
`progress_map`. -/
def get_deployment_status (ds : Store) (id : Nat) : Option DeploymentStatusView :=
  (ds.lookup id).map (fun d =>
    ⟨id, d.status, progress_map_get d.status, get_status_message d.status,
      d.logs.length, d.errors.length, d.resources_created.length,
      d.resources_failed.length, d.updated_at⟩)

/-- The server-level state: the deployment store plus the uuid supply. -/
structure ServerState where
  deployments : Store
  next_uuid : Nat
  deriving DecidableEq, Repr

/-- The fresh "pending" record built by the `enhanced_deployment`
endpoint (lines 52-69). -/
def initial_record (req : EnhancedDeploymentRequest) (now : Nat) : DeploymentData :=
  { project_name := req.project_name
    project_type := req.project_type
    environment := req.environment
    status := "pending"
    created_at := now
    updated_at := now
    options := req.options
    logs := []
    errors := []
    resources_created := []
    resources_failed := []
    monitoring_enabled := req.enable_monitoring
    url := none
    metrics_url := none
    logs_url := none
    project_analysis := none }

/-- `enhanced_deployment` (POST /enhanced): allocate a fresh id, store
the pending record, schedule the background task, return the id. -/
def enhanced_deployment (s : ServerState) (req : EnhancedDeploymentRequest)
    (now : Nat) : Nat × ServerState :=
  (s.next_uuid, ⟨s.deployments ++ [(s.next_uuid, initial_record req now)], s.next_uuid + 1⟩)

/-- `rollback_deployment` (lines 197-226): 404 on an unknown id;
otherwise allocate a fresh rollback id, schedule `process_rollback` and
return.  The deployment store is not touched. -/
def rollback_deployment (s : ServerState) (id : Nat) :
    Except String (Nat × ServerState) :=
  if (s.deployments.lookup id).isSome then
    .ok (s.next_uuid, ⟨s.deployments, s.next_uuid + 1⟩)
  else
    .error "Deployment not found"

/-- `process_rollback` (lines 340-347): sleeps and logs (its `except`
branch also only logs); it never touches the deployment store. -/
def process_rollback (s : ServerState) : ServerState := s

/-- `delete_deployment` (lines 228-246): 404 on an unknown id, otherwise
remove the record from the store. -/
def delete_deployment (s : ServerState) (id : Nat) : Except String ServerState :=
  if (s.deployments.lookup id).isSome then
    .ok ⟨s.deployments.filter (fun e => e.1 != id), s.next_uuid⟩
  else
    .error "Deployment not found"

/-- Every key of the store was drawn from the uuid supply.  Established
by record creation and preserved by every operation. -/
def StoreWf (s : ServerState) : Prop :=
  ∀ k d, (k, d) ∈ s.deployments → k < s.next_uuid

/-- A concrete request, for witnesses. -/
def sample_request : EnhancedDeploymentRequest :=
  ⟨"demo", "react", "prod", [], true, false, false, true, false⟩


instance forward_step_decidable : DecidableRel forward_step := fun x y =>
  inferInstanceAs
    (Decidable ((stage_index x ≤ stage_index y ∨ y = "failed") ∧ x ≠ "success" ∧ x ≠ "failed"))


/-! ## Theorems -/

/-- C3: for every successfully obtained metrics snapshot the decision
rule is: cpu > 80 or memory > 85 gives (up, min(cap*2, 20), 0.9);
else cpu < 20 and memory < 30 and requests < 10 gives
(down, max(cap // 2, 1), 0.8); else (none, cap, 0.7); together with the
spec's three concrete examples (the first example's `requestCount` is
absent from the snapshot, as in the spec). -/
theorem scaling_rule_decision (cpu mem req cap : ℚ) :
    ((cpu > 80 ∨ mem > 85) →
      (scaling_rule ⟨some cpu, some mem, some req, some cap⟩).direction = "up" ∧
      (scaling_rule ⟨some cpu, some mem, some req, some cap⟩).target_capacity =
        min (cap * 2) 20 ∧
      (scaling_rule ⟨some cpu, some mem, some req, some cap⟩).confidence = 0.9) ∧
    (¬(cpu > 80 ∨ mem > 85) → (cpu < 20 ∧ mem < 30 ∧ req < 10) →
      (scaling_rule ⟨some cpu, some mem, some req, some cap⟩).direction = "down" ∧
      (scaling_rule ⟨some cpu, some mem, some req, some cap⟩).target_capacity =
        max ((⌊cap / 2⌋ : ℤ) : ℚ) 1 ∧
      (scaling_rule ⟨some cpu, some mem, some req, some cap⟩).confidence = 0.8) ∧
    (¬(cpu > 80 ∨ mem > 85) → ¬(cpu < 20 ∧ mem < 30 ∧ req < 10) →
      (scaling_rule ⟨some cpu, some mem, some req, some cap⟩).direction = "none" ∧
      (scaling_rule ⟨some cpu, some mem, some req, some cap⟩).target_capacity = cap ∧
      (scaling_rule ⟨some cpu, some mem, some req, some cap⟩).confidence = 0.7) ∧
    ((scaling_rule ⟨some 85, some 50, none, some 2⟩).direction,
      (scaling_rule ⟨some 85, some 50, none, some 2⟩).target_capacity,
      (scaling_rule ⟨some 85, some 50, none, some 2⟩).confidence) = ("up", 4, 0.9) ∧
    ((scaling_rule ⟨some 5, some 10, some 0, some 4⟩).direction,
      (scaling_rule ⟨some 5, some 10, some 0, some 4⟩).target_capacity,
      (scaling_rule ⟨some 5, some 10, some 0, some 4⟩).confidence) = ("down", 2, 0.8) ∧
    ((scaling_rule ⟨some 50, some 50, some 50, some 3⟩).direction,
      (scaling_rule ⟨some 50, some 50, some 50, some 3⟩).target_capacity,
      (scaling_rule ⟨some 50, some 50, some 50, some 3⟩).confidence) = ("none", 3, 0.7) := by
  refine ⟨?_, ?_, ?_, by norm_num [scaling_rule, min_def],
    by norm_num [scaling_rule, max_def], by norm_num [scaling_rule]⟩
  · intro h
    unfold scaling_rule
    simp only [Option.getD_some]
    rw [if_pos h]
    exact ⟨rfl, rfl, rfl⟩
  · intro h1 h2
    unfold scaling_rule
    simp only [Option.getD_some]
    rw [if_neg h1, if_pos h2]
    exact ⟨rfl, rfl, rfl⟩
  · intro h1 h2
    unfold scaling_rule
    simp only [Option.getD_some]
    rw [if_neg h1, if_neg h2]
    exact ⟨rfl, rfl, rfl⟩

/-- Witness for `scaling_rule_decision` at cpu 85, mem 50, req 50,
cap 2. -/
theorem scaling_rule_decision_witness :
    ((85 : ℚ) > 80 ∨ (50 : ℚ) > 85) ∧
    (scaling_rule ⟨some 85, some 50, some 50, some 2⟩).direction = "up" :=
  ⟨by decide, ((scaling_rule_decision 85 50 50 2).1 (by decide)).1⟩

/-- C7 counterexample: with cpu 50, memory 50, requests 50 and
`current_capacity` missing, the code returns target capacity 1; if the
missing field were treated as 0, the no-scaling branch would return
target capacity 0.  So `currentCapacity` does not default to 0. -/
theorem scaling_missing_capacity_counterexample :
    (scaling_rule ⟨some 50, some 50, some 50, none⟩).direction = "none" ∧
    (scaling_rule ⟨some 50, some 50, some 50, none⟩).target_capacity = 1 ∧
    (1 : ℚ) ≠ 0 := by
  decide

/-- C7 (amended): a missing `cpuUtilization`, `memoryUtilization` or
`requestCount` is treated as 0 by the decision rule, but a missing
`currentCapacity` is treated as 1: the decision (apart from the echoed
raw metrics dict) equals the decision on the snapshot with those
defaults filled in. -/
theorem scaling_rule_defaults (m : MetricsSnapshot) :
    (scaling_rule m).core =
      (scaling_rule ⟨some (m.cpu_utilization.getD 0), some (m.memory_utilization.getD 0),
        some (m.request_count.getD 0), some (m.current_capacity.getD 1)⟩).core := by
  rcases m with ⟨c, me, r, ca⟩
  unfold scaling_rule
  simp only [Option.getD_some]
  split_ifs <;> rfl

/-- C8 counterexample: when the metrics snapshot cannot be obtained,
`get_cloudwatch_metrics` swallows the error and returns the empty dict,
so `analyze_scaling_metrics` returns the scale-DOWN decision with
confidence 0.8 and a low-utilization reason — not the claimed
(none, 1, 0.0) decision naming the retrieval failure. -/
theorem scaling_fetch_failure_counterexample :
    (analyze_scaling_metrics (.error "Unable to locate credentials") none).direction = "down" ∧
    (analyze_scaling_metrics (.error "Unable to locate credentials") none).target_capacity = 1 ∧
    (analyze_scaling_metrics (.error "Unable to locate credentials") none).confidence = 0.8 ∧
    (analyze_scaling_metrics (.error "Unable to locate credentials") none).reason =
      "Low resource utilization: CPU 0.0%, Memory 0.0%" ∧
    (analyze_scaling_metrics (.error "Unable to locate credentials") none).direction ≠ "none" := by
  refine ⟨?_, ?_, ?_, ?_, ?_⟩
  · norm_num [analyze_scaling_metrics, get_cloudwatch_metrics, scaling_rule, MetricsSnapshot.empty]
  · norm_num [analyze_scaling_metrics, get_cloudwatch_metrics, scaling_rule,
      MetricsSnapshot.empty, max_def]
  · norm_num [analyze_scaling_metrics, get_cloudwatch_metrics, scaling_rule, MetricsSnapshot.empty]
  · norm_num [analyze_scaling_metrics, get_cloudwatch_metrics, scaling_rule,
      MetricsSnapshot.empty, fmt1]
    decide
  · norm_num [analyze_scaling_metrics, get_cloudwatch_metrics, scaling_rule, MetricsSnapshot.empty]
    decide

/-- C8 (amended): the scaling decision operation never raises to its
caller.  A failed metrics retrieval yields the empty snapshot and hence
the decision (down, 1, 0.8) with the low-utilization reason; the
degraded decision (none, 1, 0.0) with a reason naming the failure is
returned only when the analysis body itself raises unexpectedly. -/
theorem scaling_fetch_failure_degraded (e : String) (f : Except String MetricsSnapshot) :
    (analyze_scaling_metrics (.error e) none).direction = "down" ∧
    (analyze_scaling_metrics (.error e) none).target_capacity = 1 ∧
    (analyze_scaling_metrics (.error e) none).confidence = 0.8 ∧
    analyze_scaling_metrics f (some e) =
      { direction := "none", target_capacity := 1,
        reason := "Metrics analysis failed: " ++ e, confidence := 0.0,
        metrics := MetricsSnapshot.empty } := by
  refine ⟨?_, ?_, ?_, rfl⟩
  · norm_num [analyze_scaling_metrics, get_cloudwatch_metrics, scaling_rule, MetricsSnapshot.empty]
  · norm_num [analyze_scaling_metrics, get_cloudwatch_metrics, scaling_rule,
      MetricsSnapshot.empty, max_def]
  · norm_num [analyze_scaling_metrics, get_cloudwatch_metrics, scaling_rule, MetricsSnapshot.empty]

set_option maxRecDepth 4000 in
/-- C5: on the file list [package.json, src/App.js, src/index.js] with
manifest dependencies {react, react-dom} and scripts {start, build}, the
detector returns exactly (react, 0.9): react scores
0.75*0.4 + 1.0*0.4 + 1.0*0.2 = 0.9, the maximum over the catalog. -/
theorem detector_react_example :
    detect_project_type react_example_files react_example_config = ("react", 0.9) := by
  have hr0 : indicator_score react_example_files react_example_config
      ⟨["package.json", "src/App.js", "src/App.jsx", "src/index.js"],
        ["react", "react-dom"], ["start", "build"], "node:18-alpine", 3000⟩ = 9/10 := by
    simp only [indicator_score]
    norm_num [show file_matches react_example_files
        ⟨["package.json", "src/App.js", "src/App.jsx", "src/index.js"],
          ["react", "react-dom"], ["start", "build"], "node:18-alpine", 3000⟩ = 3 from by decide,
      show keyword_matches react_example_config
        ⟨["package.json", "src/App.js", "src/App.jsx", "src/index.js"],
          ["react", "react-dom"], ["start", "build"], "node:18-alpine", 3000⟩ = 2 from by decide,
      show script_matches react_example_config
        ⟨["package.json", "src/App.js", "src/App.jsx", "src/index.js"],
          ["react", "react-dom"], ["start", "build"], "node:18-alpine", 3000⟩ = 2 from by decide]
  have hr1 : indicator_score react_example_files react_example_config
      ⟨["package.json", "src/App.vue", "src/main.js"],
        ["vue", "@vue/cli"], ["serve", "build"], "node:18-alpine", 8080⟩ = 7/30 := by
    simp only [indicator_score]
    norm_num [show file_matches react_example_files
        ⟨["package.json", "src/App.vue", "src/main.js"],
          ["vue", "@vue/cli"], ["serve", "build"], "node:18-alpine", 8080⟩ = 1 from by decide,
      show keyword_matches react_example_config
        ⟨["package.json", "src/App.vue", "src/main.js"],
          ["vue", "@vue/cli"], ["serve", "build"], "node:18-alpine", 8080⟩ = 0 from by decide,
      show script_matches react_example_config
        ⟨["package.json", "src/App.vue", "src/main.js"],
          ["vue", "@vue/cli"], ["serve", "build"], "node:18-alpine", 8080⟩ = 1 from by decide]
  have hr2 : indicator_score react_example_files react_example_config
      ⟨["package.json", "src/app/app.component.ts", "angular.json"],
        ["@angular/core", "@angular/cli"], ["start", "build"], "node:18-alpine", 4200⟩ = 1/3 := by
    simp only [indicator_score]
    norm_num [show file_matches react_example_files
        ⟨["package.json", "src/app/app.component.ts", "angular.json"],
          ["@angular/core", "@angular/cli"], ["start", "build"], "node:18-alpine", 4200⟩ = 1 from by decide,
      show keyword_matches react_example_config
        ⟨["package.json", "src/app/app.component.ts", "angular.json"],
          ["@angular/core", "@angular/cli"], ["start", "build"], "node:18-alpine", 4200⟩ = 0 from by decide,
      show script_matches react_example_config
        ⟨["package.json", "src/app/app.component.ts", "angular.json"],
          ["@angular/core", "@angular/cli"], ["start", "build"], "node:18-alpine", 4200⟩ = 2 from by decide]
  have hr3 : indicator_score react_example_files react_example_config
      ⟨["package.json", "next.config.js", "pages/", "app/"],
        ["next", "react"], ["dev", "build", "start"], "node:18-alpine", 3000⟩ = 13/30 := by
    simp only [indicator_score]
    norm_num [show file_matches react_example_files
        ⟨["package.json", "next.config.js", "pages/", "app/"],
          ["next", "react"], ["dev", "build", "start"], "node:18-alpine", 3000⟩ = 1 from by decide,
      show keyword_matches react_example_config
        ⟨["package.json", "next.config.js", "pages/", "app/"],
          ["next", "react"], ["dev", "build", "start"], "node:18-alpine", 3000⟩ = 1 from by decide,
      show script_matches react_example_config
        ⟨["package.json", "next.config.js", "pages/", "app/"],
          ["next", "react"], ["dev", "build", "start"], "node:18-alpine", 3000⟩ = 2 from by decide]
  have hr4 : indicator_score react_example_files react_example_config
      ⟨["package.json", "nuxt.config.js", "pages/"],
        ["nuxt", "vue"], ["dev", "build", "start"], "node:18-alpine", 3000⟩ = 4/15 := by
    simp only [indicator_score]
    norm_num [show file_matches react_example_files
        ⟨["package.json", "nuxt.config.js", "pages/"],
          ["nuxt", "vue"], ["dev", "build", "start"], "node:18-alpine", 3000⟩ = 1 from by decide,
      show keyword_matches react_example_config
        ⟨["package.json", "nuxt.config.js", "pages/"],
          ["nuxt", "vue"], ["dev", "build", "start"], "node:18-alpine", 3000⟩ = 0 from by decide,
      show script_matches react_example_config
        ⟨["package.json", "nuxt.config.js", "pages/"],
          ["nuxt", "vue"], ["dev", "build", "start"], "node:18-alpine", 3000⟩ = 2 from by decide]
  have hr5 : indicator_score react_example_files react_example_config
      ⟨["package.json", "src/App.svelte", "svelte.config.js"],
        ["svelte", "sveltekit"], ["dev", "build"], "node:18-alpine", 5173⟩ = 7/30 := by
    simp only [indicator_score]
    norm_num [show file_matches react_example_files
        ⟨["package.json", "src/App.svelte", "svelte.config.js"],
          ["svelte", "sveltekit"], ["dev", "build"], "node:18-alpine", 5173⟩ = 1 from by decide,
      show keyword_matches react_example_config
        ⟨["package.json", "src/App.svelte", "svelte.config.js"],
          ["svelte", "sveltekit"], ["dev", "build"], "node:18-alpine", 5173⟩ = 0 from by decide,
      show script_matches react_example_config
        ⟨["package.json", "src/App.svelte", "svelte.config.js"],
          ["svelte", "sveltekit"], ["dev", "build"], "node:18-alpine", 5173⟩ = 1 from by decide]
  have hr6 : indicator_score react_example_files react_example_config
      ⟨["requirements.txt", "main.py", "app.py", "manage.py"],
        ["flask", "django", "fastapi", "streamlit"], [], "python:3.11-slim", 8000⟩ = 0 := by
    simp only [indicator_score]
    norm_num [show file_matches react_example_files
        ⟨["requirements.txt", "main.py", "app.py", "manage.py"],
          ["flask", "django", "fastapi", "streamlit"], [], "python:3.11-slim", 8000⟩ = 0 from by decide,
      show keyword_matches react_example_config
        ⟨["requirements.txt", "main.py", "app.py", "manage.py"],
          ["flask", "django", "fastapi", "streamlit"], [], "python:3.11-slim", 8000⟩ = 0 from by decide,
      show script_matches react_example_config
        ⟨["requirements.txt", "main.py", "app.py", "manage.py"],
          ["flask", "django", "fastapi", "streamlit"], [], "python:3.11-slim", 8000⟩ = 0 from by decide]
  have hr7 : indicator_score react_example_files react_example_config
      ⟨["pom.xml", "build.gradle", "src/main/java/"],
        ["spring", "maven", "gradle"], [], "openjdk:17-jre-slim", 8080⟩ = 0 := by
    simp only [indicator_score]
    norm_num [show file_matches react_example_files
        ⟨["pom.xml", "build.gradle", "src/main/java/"],
          ["spring", "maven", "gradle"], [], "openjdk:17-jre-slim", 8080⟩ = 0 from by decide,
      show keyword_matches react_example_config
        ⟨["pom.xml", "build.gradle", "src/main/java/"],
          ["spring", "maven", "gradle"], [], "openjdk:17-jre-slim", 8080⟩ = 0 from by decide,
      show script_matches react_example_config
        ⟨["pom.xml", "build.gradle", "src/main/java/"],
          ["spring", "maven", "gradle"], [], "openjdk:17-jre-slim", 8080⟩ = 0 from by decide]
  have hr8 : indicator_score react_example_files react_example_config
      ⟨["go.mod", "main.go", "go.sum"],
        ["gin", "echo", "fiber"], [], "golang:1.21-alpine", 8080⟩ = 0 := by
    simp only [indicator_score]
    norm_num [show file_matches react_example_files
        ⟨["go.mod", "main.go", "go.sum"],
          ["gin", "echo", "fiber"], [], "golang:1.21-alpine", 8080⟩ = 0 from by decide,
      show keyword_matches react_example_config
        ⟨["go.mod", "main.go", "go.sum"],
          ["gin", "echo", "fiber"], [], "golang:1.21-alpine", 8080⟩ = 0 from by decide,
      show script_matches react_example_config
        ⟨["go.mod", "main.go", "go.sum"],
          ["gin", "echo", "fiber"], [], "golang:1.21-alpine", 8080⟩ = 0 from by decide]
  have hr9 : indicator_score react_example_files react_example_config
      ⟨["Cargo.toml", "src/main.rs"],
        ["actix", "warp", "rocket"], [], "rust:1.75-slim", 8080⟩ = 0 := by
    simp only [indicator_score]
    norm_num [show file_matches react_example_files
        ⟨["Cargo.toml", "src/main.rs"],
          ["actix", "warp", "rocket"], [], "rust:1.75-slim", 8080⟩ = 0 from by decide,
      show keyword_matches react_example_config
        ⟨["Cargo.toml", "src/main.rs"],
          ["actix", "warp", "rocket"], [], "rust:1.75-slim", 8080⟩ = 0 from by decide,
      show script_matches react_example_config
        ⟨["Cargo.toml", "src/main.rs"],
          ["actix", "warp", "rocket"], [], "rust:1.75-slim", 8080⟩ = 0 from by decide]
  have hr10 : indicator_score react_example_files react_example_config
      ⟨["composer.json", "index.php", "public/"],
        ["laravel", "symfony", "wordpress"], [], "php:8.2-fpm-alpine", 80⟩ = 0 := by
    simp only [indicator_score]
    norm_num [show file_matches react_example_files
        ⟨["composer.json", "index.php", "public/"],
          ["laravel", "symfony", "wordpress"], [], "php:8.2-fpm-alpine", 80⟩ = 0 from by decide,
      show keyword_matches react_example_config
        ⟨["composer.json", "index.php", "public/"],
          ["laravel", "symfony", "wordpress"], [], "php:8.2-fpm-alpine", 80⟩ = 0 from by decide,
      show script_matches react_example_config
        ⟨["composer.json", "index.php", "public/"],
          ["laravel", "symfony", "wordpress"], [], "php:8.2-fpm-alpine", 80⟩ = 0 from by decide]
  have hr11 : indicator_score react_example_files react_example_config
      ⟨["index.html", "css/", "js/", "assets/"],
        [], [], "nginx:alpine", 80⟩ = 0 := by
    simp only [indicator_score]
    norm_num [show file_matches react_example_files
        ⟨["index.html", "css/", "js/", "assets/"],
          [], [], "nginx:alpine", 80⟩ = 0 from by decide,
      show keyword_matches react_example_config
        ⟨["index.html", "css/", "js/", "assets/"],
          [], [], "nginx:alpine", 80⟩ = 0 from by decide,
      show script_matches react_example_config
        ⟨["index.html", "css/", "js/", "assets/"],
          [], [], "nginx:alpine", 80⟩ = 0 from by decide]
  have hscoresr : detect_scores react_example_files react_example_config =
      [("react", 9/10),
       ("vue", 7/30),
       ("angular", 1/3),
       ("nextjs", 13/30),
       ("nuxt", 4/15),
       ("svelte", 7/30),
       ("python", 0),
       ("java", 0),
       ("go", 0),
       ("rust", 0),
       ("php", 0),
       ("static", 0)] := by
    simp only [detect_scores, project_indicators, List.map_cons, List.map_nil]
    rw [hr0, hr1, hr2, hr3, hr4, hr5, hr6, hr7, hr8, hr9, hr10, hr11]
  simp only [detect_project_type]
  rw [hscoresr]
  norm_num [best_score, List.foldl]


theorem guarded_term_bounds (m n : Nat) (w : ℚ) (hw : 0 ≤ w) (hmn : m ≤ n) :
    0 ≤ (if 0 < m then ((m : ℚ) / (n : ℚ)) * w else 0) ∧
    (if 0 < m then ((m : ℚ) / (n : ℚ)) * w else 0) ≤ w := by
  split_ifs with h
  · have hn : 0 < n := lt_of_lt_of_le h hmn
    have hnq : (0 : ℚ) < (n : ℚ) := by exact_mod_cast hn
    have hdiv : (m : ℚ) / (n : ℚ) ≤ 1 := by
      rw [div_le_one hnq]; exact_mod_cast hmn
    have hdiv0 : 0 ≤ (m : ℚ) / (n : ℚ) := by positivity
    exact ⟨mul_nonneg hdiv0 hw, mul_le_of_le_one_left hw hdiv⟩
  · exact ⟨le_rfl, hw⟩

theorem indicator_score_bounds (files : List String) (config : ConfigData) (ind : Indicator) :
    0 ≤ indicator_score files config ind ∧ indicator_score files config ind ≤ 1 := by
  unfold indicator_score
  have h1 := guarded_term_bounds (file_matches files ind) ind.files.length (2/5)
    (by norm_num) (List.countP_le_length _)
  have h2 := guarded_term_bounds (keyword_matches config ind) ind.keywords.length (2/5)
    (by norm_num) (List.countP_le_length _)
  have h3 := guarded_term_bounds (script_matches config ind) ind.scripts.length (1/5)
    (by norm_num) (List.countP_le_length _)
  constructor
  · linarith [h1.1, h2.1, h3.1]
  · linarith [h1.2, h2.2, h3.2]

theorem best_score_aux_bounds (xs : List (String × ℚ)) (b : String × ℚ)
    (hb : 0 ≤ b.2 ∧ b.2 ≤ 1) (hxs : ∀ y ∈ xs, 0 ≤ y.2 ∧ y.2 ≤ 1) :
    0 ≤ (xs.foldl (fun b y => if y.2 > b.2 then y else b) b).2 ∧
    (xs.foldl (fun b y => if y.2 > b.2 then y else b) b).2 ≤ 1 := by
  induction xs generalizing b with
  | nil => exact hb
  | cons x xs ih =>
    simp only [List.foldl_cons]
    apply ih
    · split_ifs with h
      · exact hxs x (by simp)
      · exact hb
    · intro y hy
      exact hxs y (by simp [hy])

theorem best_score_bounds (l : List (String × ℚ)) (hne : l ≠ [])
    (hl : ∀ y ∈ l, 0 ≤ y.2 ∧ y.2 ≤ 1) :
    0 ≤ (best_score l).2 ∧ (best_score l).2 ≤ 1 := by
  cases l with
  | nil => exact (hne rfl).elim
  | cons x xs =>
    simp only [best_score]
    exact best_score_aux_bounds xs x (hl x (by simp)) (fun y hy => hl y (by simp [hy]))

/-- C4: for every detector input the returned confidence lies in [0, 1],
and whenever the maximal weighted catalog score is strictly below 0.3
(in particular when nothing matches) the detector returns
(static, 0.3) — the floor, not the computed score. -/
theorem detector_confidence_bounds (files : List String) (config : ConfigData) :
    (0 ≤ (detect_project_type files config).2 ∧ (detect_project_type files config).2 ≤ 1) ∧
    ((best_score (detect_scores files config)).2 < 3/10 →
      detect_project_type files config = ("static", 0.3)) := by
  have hmem : ∀ y ∈ detect_scores files config, 0 ≤ y.2 ∧ y.2 ≤ 1 := by
    intro y hy
    simp only [detect_scores, List.mem_map] at hy
    obtain ⟨p, hp, rfl⟩ := hy
    exact indicator_score_bounds files config p.2
  have hne : detect_scores files config ≠ [] := by
    simp [detect_scores, project_indicators]
  have hb := best_score_bounds _ hne hmem
  constructor
  · simp only [detect_project_type]
    split_ifs with h
    · constructor <;> norm_num
    · exact hb
  · intro h
    simp only [detect_project_type]
    rw [if_pos h]
    norm_num

set_option maxRecDepth 4000 in
/-- Witness for `detector_confidence_bounds`: the empty project tree has
best score 0 < 0.3 and is classified (static, 0.3). -/
theorem detector_confidence_bounds_witness :
    (best_score (detect_scores ([] : List String) (⟨[], [], []⟩ : ConfigData))).2 < 3/10 ∧
    detect_project_type ([] : List String) (⟨[], [], []⟩ : ConfigData) = ("static", 0.3) := by
  have h : (best_score (detect_scores ([] : List String) (⟨[], [], []⟩ : ConfigData))).2 < 3/10 := by
    have he0 : indicator_score ([] : List String) (⟨[], [], []⟩ : ConfigData)
        ⟨["package.json", "src/App.js", "src/App.jsx", "src/index.js"],
          ["react", "react-dom"], ["start", "build"], "node:18-alpine", 3000⟩ = 0 := by
      simp only [indicator_score]
      norm_num [show file_matches ([] : List String)
          ⟨["package.json", "src/App.js", "src/App.jsx", "src/index.js"],
            ["react", "react-dom"], ["start", "build"], "node:18-alpine", 3000⟩ = 0 from by decide,
        show keyword_matches (⟨[], [], []⟩ : ConfigData)
          ⟨["package.json", "src/App.js", "src/App.jsx", "src/index.js"],
            ["react", "react-dom"], ["start", "build"], "node:18-alpine", 3000⟩ = 0 from by decide,
        show script_matches (⟨[], [], []⟩ : ConfigData)
          ⟨["package.json", "src/App.js", "src/App.jsx", "src/index.js"],
            ["react", "react-dom"], ["start", "build"], "node:18-alpine", 3000⟩ = 0 from by decide]
    have he1 : indicator_score ([] : List String) (⟨[], [], []⟩ : ConfigData)
        ⟨["package.json", "src/App.vue", "src/main.js"],
          ["vue", "@vue/cli"], ["serve", "build"], "node:18-alpine", 8080⟩ = 0 := by
      simp only [indicator_score]
      norm_num [show file_matches ([] : List String)
          ⟨["package.json", "src/App.vue", "src/main.js"],
            ["vue", "@vue/cli"], ["serve", "build"], "node:18-alpine", 8080⟩ = 0 from by decide,
        show keyword_matches (⟨[], [], []⟩ : ConfigData)
          ⟨["package.json", "src/App.vue", "src/main.js"],
            ["vue", "@vue/cli"], ["serve", "build"], "node:18-alpine", 8080⟩ = 0 from by decide,
        show script_matches (⟨[], [], []⟩ : ConfigData)
          ⟨["package.json", "src/App.vue", "src/main.js"],
            ["vue", "@vue/cli"], ["serve", "build"], "node:18-alpine", 8080⟩ = 0 from by decide]
    have he2 : indicator_score ([] : List String) (⟨[], [], []⟩ : ConfigData)
        ⟨["package.json", "src/app/app.component.ts", "angular.json"],
          ["@angular/core", "@angular/cli"], ["start", "build"], "node:18-alpine", 4200⟩ = 0 := by
      simp only [indicator_score]
      norm_num [show file_matches ([] : List String)
          ⟨["package.json", "src/app/app.component.ts", "angular.json"],
            ["@angular/core", "@angular/cli"], ["start", "build"], "node:18-alpine", 4200⟩ = 0 from by decide,
        show keyword_matches (⟨[], [], []⟩ : ConfigData)
          ⟨["package.json", "src/app/app.component.ts", "angular.json"],
            ["@angular/core", "@angular/cli"], ["start", "build"], "node:18-alpine", 4200⟩ = 0 from by decide,
        show script_matches (⟨[], [], []⟩ : ConfigData)
          ⟨["package.json", "src/app/app.component.ts", "angular.json"],
            ["@angular/core", "@angular/cli"], ["start", "build"], "node:18-alpine", 4200⟩ = 0 from by decide]
    have he3 : indicator_score ([] : List String) (⟨[], [], []⟩ : ConfigData)
        ⟨["package.json", "next.config.js", "pages/", "app/"],
          ["next", "react"], ["dev", "build", "start"], "node:18-alpine", 3000⟩ = 0 := by
      simp only [indicator_score]
      norm_num [show file_matches ([] : List String)
          ⟨["package.json", "next.config.js", "pages/", "app/"],
            ["next", "react"], ["dev", "build", "start"], "node:18-alpine", 3000⟩ = 0 from by decide,
        show keyword_matches (⟨[], [], []⟩ : ConfigData)
          ⟨["package.json", "next.config.js", "pages/", "app/"],
            ["next", "react"], ["dev", "build", "start"], "node:18-alpine", 3000⟩ = 0 from by decide,
        show script_matches (⟨[], [], []⟩ : ConfigData)
          ⟨["package.json", "next.config.js", "pages/", "app/"],
            ["next", "react"], ["dev", "build", "start"], "node:18-alpine", 3000⟩ = 0 from by decide]
    have he4 : indicator_score ([] : List String) (⟨[], [], []⟩ : ConfigData)
        ⟨["package.json", "nuxt.config.js", "pages/"],
          ["nuxt", "vue"], ["dev", "build", "start"], "node:18-alpine", 3000⟩ = 0 := by
      simp only [indicator_score]
      norm_num [show file_matches ([] : List String)
          ⟨["package.json", "nuxt.config.js", "pages/"],
            ["nuxt", "vue"], ["dev", "build", "start"], "node:18-alpine", 3000⟩ = 0 from by decide,
        show keyword_matches (⟨[], [], []⟩ : ConfigData)
          ⟨["package.json", "nuxt.config.js", "pages/"],
            ["nuxt", "vue"], ["dev", "build", "start"], "node:18-alpine", 3000⟩ = 0 from by decide,
        show script_matches (⟨[], [], []⟩ : ConfigData)
          ⟨["package.json", "nuxt.config.js", "pages/"],
            ["nuxt", "vue"], ["dev", "build", "start"], "node:18-alpine", 3000⟩ = 0 from by decide]
    have he5 : indicator_score ([] : List String) (⟨[], [], []⟩ : ConfigData)
        ⟨["package.json", "src/App.svelte", "svelte.config.js"],
          ["svelte", "sveltekit"], ["dev", "build"], "node:18-alpine", 5173⟩ = 0 := by
      simp only [indicator_score]
      norm_num [show file_matches ([] : List String)
          ⟨["package.json", "src/App.svelte", "svelte.config.js"],
            ["svelte", "sveltekit"], ["dev", "build"], "node:18-alpine", 5173⟩ = 0 from by decide,
        show keyword_matches (⟨[], [], []⟩ : ConfigData)
          ⟨["package.json", "src/App.svelte", "svelte.config.js"],
            ["svelte", "sveltekit"], ["dev", "build"], "node:18-alpine", 5173⟩ = 0 from by decide,
        show script_matches (⟨[], [], []⟩ : ConfigData)
          ⟨["package.json", "src/App.svelte", "svelte.config.js"],
            ["svelte", "sveltekit"], ["dev", "build"], "node:18-alpine", 5173⟩ = 0 from by decide]
    have he6 : indicator_score ([] : List String) (⟨[], [], []⟩ : ConfigData)
        ⟨["requirements.txt", "main.py", "app.py", "manage.py"],
          ["flask", "django", "fastapi", "streamlit"], [], "python:3.11-slim", 8000⟩ = 0 := by
      simp only [indicator_score]
      norm_num [show file_matches ([] : List String)
          ⟨["requirements.txt", "main.py", "app.py", "manage.py"],
            ["flask", "django", "fastapi", "streamlit"], [], "python:3.11-slim", 8000⟩ = 0 from by decide,
        show keyword_matches (⟨[], [], []⟩ : ConfigData)
          ⟨["requirements.txt", "main.py", "app.py", "manage.py"],
            ["flask", "django", "fastapi", "streamlit"], [], "python:3.11-slim", 8000⟩ = 0 from by decide,
        show script_matches (⟨[], [], []⟩ : ConfigData)
          ⟨["requirements.txt", "main.py", "app.py", "manage.py"],
            ["flask", "django", "fastapi", "streamlit"], [], "python:3.11-slim", 8000⟩ = 0 from by decide]
    have he7 : indicator_score ([] : List String) (⟨[], [], []⟩ : ConfigData)
        ⟨["pom.xml", "build.gradle", "src/main/java/"],
          ["spring", "maven", "gradle"], [], "openjdk:17-jre-slim", 8080⟩ = 0 := by
      simp only [indicator_score]
      norm_num [show file_matches ([] : List String)
          ⟨["pom.xml", "build.gradle", "src/main/java/"],
            ["spring", "maven", "gradle"], [], "openjdk:17-jre-slim", 8080⟩ = 0 from by decide,
        show keyword_matches (⟨[], [], []⟩ : ConfigData)
          ⟨["pom.xml", "build.gradle", "src/main/java/"],
            ["spring", "maven", "gradle"], [], "openjdk:17-jre-slim", 8080⟩ = 0 from by decide,
        show script_matches (⟨[], [], []⟩ : ConfigData)
          ⟨["pom.xml", "build.gradle", "src/main/java/"],
            ["spring", "maven", "gradle"], [], "openjdk:17-jre-slim", 8080⟩ = 0 from by decide]
    have he8 : indicator_score ([] : List String) (⟨[], [], []⟩ : ConfigData)
        ⟨["go.mod", "main.go", "go.sum"],
          ["gin", "echo", "fiber"], [], "golang:1.21-alpine", 8080⟩ = 0 := by
      simp only [indicator_score]
      norm_num [show file_matches ([] : List String)
          ⟨["go.mod", "main.go", "go.sum"],
            ["gin", "echo", "fiber"], [], "golang:1.21-alpine", 8080⟩ = 0 from by decide,
        show keyword_matches (⟨[], [], []⟩ : ConfigData)
          ⟨["go.mod", "main.go", "go.sum"],
            ["gin", "echo", "fiber"], [], "golang:1.21-alpine", 8080⟩ = 0 from by decide,
        show script_matches (⟨[], [], []⟩ : ConfigData)
          ⟨["go.mod", "main.go", "go.sum"],
            ["gin", "echo", "fiber"], [], "golang:1.21-alpine", 8080⟩ = 0 from by decide]
    have he9 : indicator_score ([] : List String) (⟨[], [], []⟩ : ConfigData)
        ⟨["Cargo.toml", "src/main.rs"],
          ["actix", "warp", "rocket"], [], "rust:1.75-slim", 8080⟩ = 0 := by
      simp only [indicator_score]
      norm_num [show file_matches ([] : List String)
          ⟨["Cargo.toml", "src/main.rs"],
            ["actix", "warp", "rocket"], [], "rust:1.75-slim", 8080⟩ = 0 from by decide,
        show keyword_matches (⟨[], [], []⟩ : ConfigData)
          ⟨["Cargo.toml", "src/main.rs"],
            ["actix", "warp", "rocket"], [], "rust:1.75-slim", 8080⟩ = 0 from by decide,
        show script_matches (⟨[], [], []⟩ : ConfigData)
          ⟨["Cargo.toml", "src/main.rs"],
            ["actix", "warp", "rocket"], [], "rust:1.75-slim", 8080⟩ = 0 from by decide]
    have he10 : indicator_score ([] : List String) (⟨[], [], []⟩ : ConfigData)
        ⟨["composer.json", "index.php", "public/"],
          ["laravel", "symfony", "wordpress"], [], "php:8.2-fpm-alpine", 80⟩ = 0 := by
      simp only [indicator_score]
      norm_num [show file_matches ([] : List String)
          ⟨["composer.json", "index.php", "public/"],
            ["laravel", "symfony", "wordpress"], [], "php:8.2-fpm-alpine", 80⟩ = 0 from by decide,
        show keyword_matches (⟨[], [], []⟩ : ConfigData)
          ⟨["composer.json", "index.php", "public/"],
            ["laravel", "symfony", "wordpress"], [], "php:8.2-fpm-alpine", 80⟩ = 0 from by decide,
        show script_matches (⟨[], [], []⟩ : ConfigData)
          ⟨["composer.json", "index.php", "public/"],
            ["laravel", "symfony", "wordpress"], [], "php:8.2-fpm-alpine", 80⟩ = 0 from by decide]
    have he11 : indicator_score ([] : List String) (⟨[], [], []⟩ : ConfigData)
        ⟨["index.html", "css/", "js/", "assets/"],
          [], [], "nginx:alpine", 80⟩ = 0 := by
      simp only [indicator_score]
      norm_num [show file_matches ([] : List String)
          ⟨["index.html", "css/", "js/", "assets/"],
            [], [], "nginx:alpine", 80⟩ = 0 from by decide,
        show keyword_matches (⟨[], [], []⟩ : ConfigData)
          ⟨["index.html", "css/", "js/", "assets/"],
            [], [], "nginx:alpine", 80⟩ = 0 from by decide,
        show script_matches (⟨[], [], []⟩ : ConfigData)
          ⟨["index.html", "css/", "js/", "assets/"],
            [], [], "nginx:alpine", 80⟩ = 0 from by decide]
    have hscorese : detect_scores ([] : List String) (⟨[], [], []⟩ : ConfigData) =
        [("react", 0),
         ("vue", 0),
         ("angular", 0),
         ("nextjs", 0),
         ("nuxt", 0),
         ("svelte", 0),
         ("python", 0),
         ("java", 0),
         ("go", 0),
         ("rust", 0),
         ("php", 0),
         ("static", 0)] := by
      simp only [detect_scores, project_indicators, List.map_cons, List.map_nil]
      rw [he0, he1, he2, he3, he4, he5, he6, he7, he8, he9, he10, he11]
    rw [hscorese]
    norm_num [best_score, List.foldl]
  exact ⟨h, (detector_confidence_bounds [] ⟨[], [], []⟩).2 h⟩


theorem lookup_none_of_not_mem_keys {β : Type} (l : List (String × β)) (k : String)
    (h : k ∉ l.map Prod.fst) : l.lookup k = none := by
  induction l with
  | nil => rfl
  | cons p t ih =>
    obtain ⟨k1, v⟩ := p
    simp only [List.map_cons, List.mem_cons, not_or] at h
    obtain ⟨h1, h2⟩ := h
    simp only [List.lookup]
    rw [show (k == k1) = false from beq_eq_false_iff_ne.mpr h1]
    exact ih h2

theorem templates_use_only_port (k : String) (g : ProjectAnalysisRec → String)
    (hl : dockerfile_templates.lookup k = some g) (a1 a2 : ProjectAnalysisRec)
    (hp : a1.port = a2.port) : g a1 = g a2 := by
  simp only [dockerfile_templates, List.lookup] at hl
  repeat' split at hl
  all_goals first
  | (injection hl with h
     subst h
     simp only [generate_react_dockerfile, generate_vue_dockerfile,
       generate_angular_dockerfile, generate_nextjs_dockerfile, generate_nuxt_dockerfile,
       generate_svelte_dockerfile, generate_python_dockerfile, generate_java_dockerfile,
       generate_go_dockerfile, generate_rust_dockerfile, generate_php_dockerfile,
       generate_static_dockerfile, hp])
  | simp at hl

/-- C6 counterexample: two profiles with the same `dockerfileStrategy`
tag, the same `baseImage` and the same `port` (differing only in project
type) get different Dockerfiles, so the artifact-building operation does
not select the generator by the strategy tag. -/
theorem dockerfile_strategy_counterexample :
    nextjs_profile.dockerfile_strategy = nuxt_profile.dockerfile_strategy ∧
    nextjs_profile.base_image = nuxt_profile.base_image ∧
    nextjs_profile.port = nuxt_profile.port ∧
    generate_dockerfile nextjs_profile ≠ generate_dockerfile nuxt_profile := by
  refine ⟨rfl, rfl, rfl, ?_⟩
  decide

/-- C6 (amended): the Dockerfile generator is selected by the profile's
PROJECT TYPE: the output depends only on the type and the template
parameters (port; the generic template also reads the base image), and
every type with no entry in the template table falls back to the generic
single-stage template, which is parameterized only by `baseImage` and
`port`. -/
theorem dockerfile_dispatch :
    (∀ a1 a2 : ProjectAnalysisRec, a1.project_type = a2.project_type →
      a1.base_image = a2.base_image → a1.port = a2.port →
      generate_dockerfile a1 = generate_dockerfile a2) ∧
    (∀ a : ProjectAnalysisRec, a.project_type ∉ dockerfile_templates.map Prod.fst →
      generate_dockerfile a = generate_generic_dockerfile a) ∧
    (∀ a1 a2 : ProjectAnalysisRec, a1.base_image = a2.base_image → a1.port = a2.port →
      generate_generic_dockerfile a1 = generate_generic_dockerfile a2) := by
  refine ⟨?_, ?_, ?_⟩
  · intro a1 a2 ht hb hp
    unfold generate_dockerfile
    rw [ht]
    cases hl : dockerfile_templates.lookup a2.project_type with
    | some g => exact templates_use_only_port _ g hl a1 a2 hp
    | none => simp only [generate_generic_dockerfile, hb, hp]
  · intro a h
    unfold generate_dockerfile
    rw [lookup_none_of_not_mem_keys _ _ h]
  · intro a1 a2 hb hp
    simp only [generate_generic_dockerfile, hb, hp]

/-- Witness for `dockerfile_dispatch`: the profile with project type
"unknown" has no template entry and receives the generic Dockerfile. -/
theorem dockerfile_dispatch_witness :
    ("unknown" ∉ dockerfile_templates.map Prod.fst) ∧
    generate_dockerfile unknown_profile = generate_generic_dockerfile unknown_profile :=
  ⟨by decide, dockerfile_dispatch.2.1 unknown_profile (by decide)⟩


theorem mem_of_lookup_eq_some {β : Type} (l : List (Nat × β)) (k : Nat) (v : β)
    (h : l.lookup k = some v) : (k, v) ∈ l := by
  induction l with
  | nil => simp [List.lookup] at h
  | cons p t ih =>
    obtain ⟨k1, v1⟩ := p
    simp only [List.lookup] at h
    cases hbeq : (k == k1) with
    | true =>
      rw [hbeq] at h
      injection h with hv
      have hk : k = k1 := by simpa using hbeq
      subst hk
      subst hv
      exact List.mem_cons_self _ _
    | false =>
      rw [hbeq] at h
      exact List.mem_cons_of_mem _ (ih h)

/-- C10: for a deployment id not present in the store, the status-update
operation is a silent no-op — it raises nothing (it is a total function
into stores) and leaves the store unchanged, so updates of a deployment
deleted while its background execution still runs are silently
dropped. -/
theorem update_status_missing_id (ds : Store) (id : Nat) (st : String) (p : Nat)
    (msg : String) (now : Nat) (h : ds.lookup id = none) :
    update_deployment_status ds id st p msg now = ds := by
  simp [update_deployment_status, h]

/-- Witness for `update_status_missing_id` on the empty store. -/
theorem update_status_missing_id_witness :
    (([] : Store).lookup 0 = none) ∧
    update_deployment_status [] 0 "success" 100 "m" 5 = [] :=
  ⟨rfl, update_status_missing_id [] 0 "success" 100 "m" 5 rfl⟩

/-- C9: rollback of an existing deployment returns a rollback id
distinct from the deployment id (fresh ids are never reused), and
neither the rollback request nor the background rollback execution
touches the store — in particular the original record, its status
included, is unchanged. -/
theorem rollback_frame (s : ServerState) (id : Nat) (d : DeploymentData)
    (hwf : StoreWf s) (h : s.deployments.lookup id = some d) :
    ∃ rid s2, rollback_deployment s id = .ok (rid, s2) ∧
      rid ≠ id ∧
      s2.deployments = s.deployments ∧
      (process_rollback s2).deployments = s.deployments ∧
      s2.deployments.lookup id = some d := by
  have hsome : (s.deployments.lookup id).isSome := by simp [h]
  refine ⟨s.next_uuid, ⟨s.deployments, s.next_uuid + 1⟩, ?_, ?_, rfl, rfl, h⟩
  · unfold rollback_deployment
    rw [if_pos hsome]
  · have hlt := hwf id d (mem_of_lookup_eq_some _ _ _ h)
    omega

/-- Witness for `rollback_frame`: the store holding exactly the record
created by one submission. -/
theorem rollback_frame_witness :
    StoreWf ⟨[(0, initial_record sample_request 0)], 1⟩ ∧
    ∃ rid s2, rollback_deployment ⟨[(0, initial_record sample_request 0)], 1⟩ 0 =
        .ok (rid, s2) ∧
      rid ≠ 0 ∧
      s2.deployments = [(0, initial_record sample_request 0)] ∧
      (process_rollback s2).deployments = [(0, initial_record sample_request 0)] ∧
      s2.deployments.lookup 0 = some (initial_record sample_request 0) := by
  have hwf : StoreWf ⟨[(0, initial_record sample_request 0)], 1⟩ := by
    intro k d hm
    simp only [List.mem_singleton, Prod.mk.injEq] at hm
    obtain ⟨hk, _⟩ := hm
    subst hk
    decide
  exact ⟨hwf, rollback_frame _ 0 _ hwf rfl⟩


theorem lookup_modify_self (ds : Store) (id : Nat) (f : DeploymentData → DeploymentData) :
    (modify_record ds id f).lookup id = (ds.lookup id).map f := by
  induction ds with
  | nil => rfl
  | cons p t ih =>
    obtain ⟨k, d⟩ := p
    by_cases hk : k = id
    · subst hk
      simp only [modify_record, List.map_cons]
      simp [List.lookup]
    · have hne : (id == k) = false := beq_eq_false_iff_ne.mpr (Ne.symm hk)
      simp only [modify_record, List.map_cons]
      rw [if_neg hk]
      simp only [List.lookup, hne]
      simpa only [modify_record] using ih

theorem apply_op_keeps (ds : Store) (id : Nat) (now : Nat) (op : PipelineOp)
    (d : DeploymentData) (h : ds.lookup id = some d) :
    ∃ d1, (apply_op ds id now op).lookup id = some d1 ∧ d1.errors = d.errors := by
  cases op with
  | updateStatus st p msg =>
    simp only [apply_op, update_deployment_status]
    rw [if_pos (by simp [h])]
    rw [lookup_modify_self, h]
    exact ⟨_, rfl, rfl⟩
  | addResources rs =>
    simp only [apply_op]
    rw [lookup_modify_self, h]
    exact ⟨_, rfl, rfl⟩

theorem apply_ops_keeps (ops : List PipelineOp) : ∀ (ds : Store) (id now : Nat)
    (d : DeploymentData), ds.lookup id = some d →
    ∃ d1, (apply_ops ds id now ops).lookup id = some d1 ∧ d1.errors = d.errors := by
  induction ops with
  | nil => exact fun ds id now d h => ⟨d, h, rfl⟩
  | cons op rest ih =>
    intro ds id now d h
    obtain ⟨d1, h1, he1⟩ := apply_op_keeps ds id now op d h
    obtain ⟨d2, h2, he2⟩ := ih _ id (now + 1) d1 h1
    exact ⟨d2, h2, he2.trans he1⟩

theorem fail_handler_lookup (ds : Store) (id : Nat) (e : String) (now : Nat)
    (d : DeploymentData) (h : ds.lookup id = some d) :
    ∃ d2, (fail_handler ds id e now).lookup id = some d2 ∧
      d2.status = "failed" ∧ d2.errors = d.errors ++ [e] := by
  simp only [fail_handler, update_deployment_status]
  rw [if_pos (by simp [h])]
  rw [lookup_modify_self, lookup_modify_self, h]
  exact ⟨_, rfl, rfl, rfl⟩

theorem getLast?_snoc (l : List String) (x : String) : (l ++ [x]).getLast? = some x := by
  exact List.getLast?_concat _

/-- C1: if an unhandled exception with message `e` is raised at any
action boundary of any stage of a run, the record's status becomes
"failed", the exception message is appended to the record's `errors`,
the progress the status endpoint then reports for the record is 0, and
execution ends there — "failed" is the last status the run writes. -/
theorem pipeline_failure (ds : Store) (id : Nat) (req : EnhancedDeploymentRequest)
    (a : ProjectAnalysisRec) (k : Nat) (e : String) (now : Nat) (d : DeploymentData)
    (h : ds.lookup id = some d) :
    ∃ d2, (process_enhanced_deployment ds id req a (some (k, e)) now).lookup id = some d2 ∧
      d2.status = "failed" ∧
      d2.errors = d.errors ++ [e] ∧
      (∃ v, get_deployment_status
          (process_enhanced_deployment ds id req a (some (k, e)) now) id = some v ∧
        v.progress = 0) ∧
      (status_trace req a (some (k, e))).getLast? = some "failed" := by
  obtain ⟨d1, h1, he1⟩ := apply_ops_keeps ((body_ops req a).take k) ds id now d h
  obtain ⟨d2, h2, hs2, he2⟩ := fail_handler_lookup _ id e (now + k) d1 h1
  have hlook : (process_enhanced_deployment ds id req a (some (k, e)) now).lookup id =
      some d2 := by
    simpa [process_enhanced_deployment] using h2
  have hget : get_deployment_status (process_enhanced_deployment ds id req a
      (some (k, e)) now) id =
      some ⟨id, d2.status, progress_map_get d2.status, get_status_message d2.status,
        d2.logs.length, d2.errors.length, d2.resources_created.length,
        d2.resources_failed.length, d2.updated_at⟩ := by
    simp [get_deployment_status, hlook]
  refine ⟨d2, hlook, hs2, ?_, ⟨_, hget, ?_⟩, ?_⟩
  · rw [he2, he1]
  · show progress_map_get d2.status = 0
    simp only [hs2]
    decide
  · simp only [status_trace, ← List.cons_append]
    exact getLast?_snoc _ _

/-- Witness for `pipeline_failure`: a single-record store, an exception
"boom" after three actions. -/
theorem pipeline_failure_witness :
    (([(0, initial_record sample_request 0)] : Store).lookup 0 =
      some (initial_record sample_request 0)) ∧
    ∃ d2, (process_enhanced_deployment [(0, initial_record sample_request 0)] 0
        sample_request nextjs_profile (some (3, "boom")) 1).lookup 0 = some d2 ∧
      d2.status = "failed" ∧
      d2.errors = (initial_record sample_request 0).errors ++ ["boom"] ∧
      (∃ v, get_deployment_status (process_enhanced_deployment
          [(0, initial_record sample_request 0)] 0 sample_request nextjs_profile
          (some (3, "boom")) 1) 0 = some v ∧ v.progress = 0) ∧
      (status_trace sample_request nextjs_profile (some (3, "boom"))).getLast? =
        some "failed" :=
  ⟨rfl, pipeline_failure _ 0 sample_request nextjs_profile 3 "boom" 1 _ rfl⟩


theorem mem_of_getLast?_eq (l : List String) (x : String) (h : l.getLast? = some x) :
    x ∈ l := by
  induction l with
  | nil => simp at h
  | cons a t ih =>
    cases t with
    | nil =>
      simp only [List.getLast?_singleton, Option.some.injEq] at h
      simp [h]
    | cons b t2 =>
      rw [List.getLast?_cons_cons] at h
      exact List.mem_cons_of_mem _ (ih h)

theorem chain_prefix_failed (P t : List String)
    (hchain : List.Chain' forward_step (P ++ t))
    (hterm : ∀ s ∈ P ++ t, s ≠ "success" ∧ s ≠ "failed") :
    List.Chain' forward_step (P ++ ["failed"]) := by
  rw [List.chain'_append]
  refine ⟨(List.chain'_append.mp hchain).1, List.chain'_singleton _, ?_⟩
  intro x hx y hy
  simp only [List.head?_cons, Option.mem_def, Option.some.injEq] at hy
  subst hy
  have hxP : x ∈ P := mem_of_getLast?_eq _ _ hx
  obtain ⟨h1, h2⟩ := hterm x (List.mem_append_left _ hxP)
  exact ⟨Or.inr rfl, h1, h2⟩

theorem body_trace_ok (req : EnhancedDeploymentRequest) (a : ProjectAnalysisRec) :
    List.Chain' forward_step ("pending" :: (body_ops req a).filterMap op_status?) ∧
    (∀ s ∈ "pending" :: (body_ops req a).filterMap op_status?,
      s ≠ "success" ∧ s ≠ "failed") ∧
    List.Chain' forward_step
      (("pending" :: (body_ops req a).filterMap op_status?) ++ ["success"]) := by
  obtain ⟨pn, pt, env, opts, cc, k8s, pf, mon, asc⟩ := req
  obtain ⟨pt2, fv, pm, bc, od, deps, ev, prt, hc, strat, bi, cs⟩ := a
  refine ⟨?_, ?_, ?_⟩ <;>
    (cases cc <;> cases k8s <;> cases mon <;> cases bc <;>
      (simp [body_ops, op_status?, List.filterMap_append, List.filterMap_cons,
        List.filterMap_nil] <;> decide))

/-- C2: the sequence of statuses any single execution writes to its
record — starting from the "pending" it is created with, for every
combination of feature flags, every analysis result and every possible
unhandled-exception point — only moves forward through the stage order
pending, detecting, containerizing, building, deploying, configuring,
success, or jumps to "failed"; and no status follows a terminal status
("success" or "failed") in the trace. -/
theorem pipeline_status_forward (req : EnhancedDeploymentRequest)
    (a : ProjectAnalysisRec) (fail : Option (Nat × String)) :
    List.Chain' forward_step (status_trace req a fail) := by
  obtain ⟨hchain, hterm, hsucc⟩ := body_trace_ok req a
  cases fail with
  | none =>
    simpa only [status_trace, List.cons_append] using hsucc
  | some ke =>
    obtain ⟨k, e⟩ := ke
    have hsplit : ("pending" :: ((body_ops req a).take k).filterMap op_status?) ++
        ((body_ops req a).drop k).filterMap op_status? =
        "pending" :: (body_ops req a).filterMap op_status? := by
      rw [List.cons_append, ← List.filterMap_append, List.take_append_drop]
    have hfail := chain_prefix_failed _ _ (by rw [hsplit]; exact hchain)
      (by rw [hsplit]; exact hterm)
    simpa only [status_trace, List.cons_append] using hfail

end VibeDeploy
